import Mathlib

/-!
Verification development for the InsightEngine evaluation pipeline
(src/insight_engine).  The Python sources are shallowly embedded:

* Python strings are `List Char` (`PyStr`); Python floats are modeled as
  exact rationals `ℚ` (all numeric expressions reached by the claims stay
  well inside the range where binary floating point and exact rational
  arithmetic agree after rounding to three decimals);
* `json.loads` (standard library, not repository code) is abstracted as a
  parameter `loads : PyStr → Except PyStr Json` returning either a parsed
  value or a decode-error message;
* the LLM capability is abstracted as a function from the article text to
  either an invocation-error message or a response text (the prompt is a
  fixed deterministic template around the article text, so quantifying
  over functions of the text covers every behaviour of the capability);
* Python exceptions are explicit `Except PyErr` values; the agents'
  `try/except` blocks become matches on those values;
* pydantic model construction (src/insight_engine/models/evaluation.py)
  is modeled by explicit validation functions (`Field(ge=…, le=…)` bounds,
  enum membership for `LogicalFallacyType`, `str` fields accepting only
  strings, as pydantic v2 does).
-/

namespace InsightEngine

/-- Python strings, embedded as lists of characters. -/
abbrev PyStr := List Char

/-- Characters removed by Python `str.strip()` (whitespace; the embedding
uses Lean's `Char.isWhitespace`, which covers the ASCII whitespace that
occurs in model output). -/
def wsChar (c : Char) : Bool := c.isWhitespace

/-- Python `s.strip()`: remove leading and trailing whitespace. -/
def pyStrip (l : PyStr) : PyStr :=
  ((l.dropWhile wsChar).reverse.dropWhile wsChar).reverse

/-- Python `s.startswith(p)`. -/
def startsW : PyStr → PyStr → Bool
  | _, [] => true
  | [], _ :: _ => false
  | c :: s, p :: ps => c == p && startsW s ps

/-- Python `s.endswith(p)`. -/
def endsW (s p : PyStr) : Bool := startsW s.reverse p.reverse

/-- The markdown-fence stripping performed (textually identically) at the
start of `_parse_response` in all four agents:

    response_text = response_text.strip()
    if response_text.startswith("```json"): response_text = response_text[7:]
    if response_text.startswith("```"):     response_text = response_text[3:]
    if response_text.endswith("```"):       response_text = response_text[:-3]
    ... json.loads(response_text.strip())

The result is the exact text handed to `json.loads`. -/
def stripFences (s : PyStr) : PyStr :=
  let s1 := pyStrip s
  let s2 := if startsW s1 ("```json".data) then s1.drop 7 else s1
  let s3 := if startsW s2 ("```".data) then s2.drop 3 else s2
  let s4 := if endsW s3 ("```".data) then s3.take (s3.length - 3) else s3
  pyStrip s4

/-- A JSON payload wrapped in a language-tagged markdown fence. -/
def wrapJsonFence (p : PyStr) : PyStr := "```json\n".data ++ p ++ "\n```".data

/-- A JSON payload wrapped in a bare markdown fence. -/
def wrapBareFence (p : PyStr) : PyStr := "```\n".data ++ p ++ "\n```".data

/-- Values produced by `json.loads`: null, booleans, numbers (modeled as
exact rationals), strings, arrays, and objects (ordered field lists). -/
inductive Json where
  | null : Json
  | bool (b : Bool) : Json
  | num (q : ℚ) : Json
  | str (s : PyStr) : Json
  | arr (items : List Json) : Json
  | obj (fields : List (PyStr × Json)) : Json

/-- Key lookup in a parsed JSON object, as on a Python dict built by
`json.loads`: with duplicate keys the last binding wins. -/
def jsonGet (fields : List (PyStr × Json)) (key : PyStr) : Option Json :=
  (fields.reverse.find? (fun kv => kv.1 == key)).map (fun kv => kv.2)

/-- Python truthiness `bool(v)` of a JSON-derived value. -/
def pyTruthy : Json → Bool
  | .null => false
  | .bool b => b
  | .num q => q != 0
  | .str s => !s.isEmpty
  | .arr xs => !xs.isEmpty
  | .obj fs => !fs.isEmpty

/-- The Python exceptions that can arise inside `_parse_response`.
`jsonDecode` is `json.JSONDecodeError` (a `ValueError` subclass); the
`except (json.JSONDecodeError, ValueError, KeyError)` clause catches
`jsonDecode` and `valueError` but not `typeError`/`attributeError`, which
therefore escape to `analyze`'s outer `except Exception`. -/
inductive PyErr where
  | jsonDecode (msg : PyStr) : PyErr
  | valueError (msg : PyStr) : PyErr
  | typeError (msg : PyStr) : PyErr
  | attributeError (msg : PyStr) : PyErr

/-- Whether `_parse_response`'s except clause catches the error. -/
def caughtInParse : PyErr → Bool
  | .jsonDecode _ => true
  | .valueError _ => true
  | .typeError _ => false
  | .attributeError _ => false

/-- Python `str(e)` for an exception: its message. -/
def pyErrMsg : PyErr → PyStr
  | .jsonDecode m => m
  | .valueError m => m
  | .typeError m => m
  | .attributeError m => m

/-- Digit run to a natural number. -/
def digitsToNat (ds : List Char) : ℕ :=
  ds.foldl (fun a c => a * 10 + (c.toNat - 48)) 0

/-- Leading sign of a Python numeric literal: `(negative?, rest)`. -/
def parseSign : PyStr → Bool × PyStr
  | '-' :: rest => (true, rest)
  | '+' :: rest => (false, rest)
  | l => (false, l)

/-- Python `float(s)` on a string: optional sign, digits with optional
fraction and optional exponent (`inf`/`nan` and digit underscores are not
modeled; no claim depends on those inputs — any string either coerces to
some rational or raises `ValueError`, and both outcomes are clamped or
turned into a fallback by the agents). -/
def pyFloatOfString (s : PyStr) : Option ℚ :=
  let t := pyStrip s
  let sgn := parseSign t
  let t1 := sgn.2
  let ip := t1.takeWhile Char.isDigit
  let r1 := t1.dropWhile Char.isDigit
  let fr : PyStr × PyStr :=
    match r1 with
    | '.' :: rest => (rest.takeWhile Char.isDigit, rest.dropWhile Char.isDigit)
    | _ => ([], r1)
  if ip.isEmpty && fr.1.isEmpty then none
  else
    let mant : ℚ := (digitsToNat ip : ℚ) + (digitsToNat fr.1 : ℚ) / (10 : ℚ) ^ fr.1.length
    let signed := if sgn.1 then -mant else mant
    match fr.2 with
    | [] => some signed
    | c :: rest =>
      if c == 'e' || c == 'E' then
        let esgn := parseSign rest
        let ed := esgn.2.takeWhile Char.isDigit
        let r3 := esgn.2.dropWhile Char.isDigit
        if ed.isEmpty || !r3.isEmpty then none
        else
          let e : ℚ := (10 : ℚ) ^ digitsToNat ed
          some (if esgn.1 then signed / e else signed * e)
      else none

/-- Python `float(v)` on a JSON-derived value: numbers pass through,
booleans become 0/1, strings are parsed as float literals (`ValueError`
on failure), and `None`/lists/dicts raise `TypeError`. -/
def pyFloat : Json → Except PyErr ℚ
  | .num q => .ok q
  | .bool b => .ok (if b then 1 else 0)
  | .str s =>
    match pyFloatOfString s with
    | some q => .ok q
    | none => .error (.valueError ("could not convert string to float".data))
  | .null => .error (.typeError ("float() argument must be a string or a real number, not NoneType".data))
  | .arr _ => .error (.typeError ("float() argument must be a string or a real number, not list".data))
  | .obj _ => .error (.typeError ("float() argument must be a string or a real number, not dict".data))

/-- Python `int(s)` on a string: optional sign and digits only
(`int("2.5")` raises `ValueError`). -/
def pyIntOfString (s : PyStr) : Option ℤ :=
  let t := pyStrip s
  let sgn := parseSign t
  let ds := sgn.2
  if ds.isEmpty || !ds.all Char.isDigit then none
  else some (if sgn.1 then -(digitsToNat ds : ℤ) else (digitsToNat ds : ℤ))

/-- Python `int(v)` on a JSON-derived value: floats truncate toward zero,
booleans become 0/1, strings must be integer literals, `None`/lists/dicts
raise `TypeError`. -/
def pyInt : Json → Except PyErr ℤ
  | .num q => .ok (if q < 0 then -(⌊-q⌋) else ⌊q⌋)
  | .bool b => .ok (if b then 1 else 0)
  | .str s =>
    match pyIntOfString s with
    | some n => .ok n
    | none => .error (.valueError ("invalid literal for int() with base 10".data))
  | .null => .error (.typeError ("int() argument must be a string, a bytes-like object or a real number, not NoneType".data))
  | .arr _ => .error (.typeError ("int() argument must be a string, a bytes-like object or a real number, not list".data))
  | .obj _ => .error (.typeError ("int() argument must be a string, a bytes-like object or a real number, not dict".data))

/-- Python `str(v)` on a JSON-derived value.  `str` never raises; the
rendering of non-string values is abstracted (it only ever lands in
free-text explanation fields, whose content no claim inspects). -/
def pyToStr : Json → PyStr
  | .str s => s
  | .null => "None".data
  | .bool b => if b then "True".data else "False".data
  | .num _ => "<number>".data
  | .arr _ => "<list>".data
  | .obj _ => "<dict>".data

/-- Python `for x in v` on a JSON-derived value: lists yield their items,
dicts yield their keys, strings yield one-character strings, and other
values raise `TypeError`. -/
def pyIter : Json → Except PyErr (List Json)
  | .arr xs => .ok xs
  | .obj fs => .ok (fs.map (fun kv => .str kv.1))
  | .str s => .ok (s.map (fun c => .str [c]))
  | .null => .error (.typeError ("NoneType object is not iterable".data))
  | .bool _ => .error (.typeError ("bool object is not iterable".data))
  | .num _ => .error (.typeError ("float object is not iterable".data))

/-- `isinstance(v, dict)`. -/
def isDict : Json → Bool
  | .obj _ => true
  | _ => false

/-- `isinstance(v, list)`. -/
def isList : Json → Bool
  | .arr _ => true
  | _ => false

/-- Whether a JSON value is a string (used to model pydantic `str` fields). -/
def isStr : Json → Bool
  | .str _ => true
  | _ => false

/-- `max(0.0, min(1.0, q))`, the clamping applied to every score. -/
def clamp01 (q : ℚ) : ℚ := max 0 (min 1 q)

/-- `result.get(key)` on the value returned by `json.loads`: on a dict it
is a lookup, on anything else Python raises `AttributeError`. -/
def pyGet (v : Json) (key : PyStr) : Except PyErr (Option Json) :=
  match v with
  | .obj fs => .ok (jsonGet fs key)
  | _ => .error (.attributeError ("object has no attribute get".data))

/-- `float(result.get(key, d))` for a float default `d`. -/
def getFloatD (v : Json) (key : PyStr) (d : ℚ) : Except PyErr ℚ :=
  match pyGet v key with
  | .error e => .error e
  | .ok none => .ok d
  | .ok (some x) => pyFloat x

/-- `bool(result.get(key, d))` for a bool default `d`. -/
def getBoolD (v : Json) (key : PyStr) (d : Bool) : Except PyErr Bool :=
  match pyGet v key with
  | .error e => .error e
  | .ok none => .ok d
  | .ok (some x) => .ok (pyTruthy x)

/-- `int(result.get(key, d))` for an int default `d`. -/
def getIntD (v : Json) (key : PyStr) (d : ℤ) : Except PyErr ℤ :=
  match pyGet v key with
  | .error e => .error e
  | .ok none => .ok d
  | .ok (some x) => pyInt x

/-- `str(result.get(key, d))` for a string default `d`. -/
def getStrD (v : Json) (key : PyStr) (d : PyStr) : Except PyErr PyStr :=
  match pyGet v key with
  | .error e => .error e
  | .ok none => .ok d
  | .ok (some x) => .ok (pyToStr x)

/-- `result.get(key, d)` returning the raw JSON value. -/
def getRawD (v : Json) (key : PyStr) (d : Json) : Except PyErr Json :=
  match pyGet v key with
  | .error e => .error e
  | .ok none => .ok d
  | .ok (some x) => .ok x

/-- The abstracted `json.loads`: decode the text into a value or fail with
a `JSONDecodeError` carrying a message. -/
abbrev Loads := PyStr → Except PyStr Json

/-- An LLM behaviour: from the article text (the prompt is a fixed
deterministic template around it) to an invocation-error message or the
response text. -/
abbrev LLM := PyStr → Except PyStr PyStr

/-! ## ReasoningDepthAgent (src/insight_engine/agents/reasoning_depth_agent.py) -/

/-- The dict returned by `ReasoningDepthAgent.analyze`. -/
structure RDDict where
  score : ℚ
  has_causal_analysis : Bool
  has_comparative_analysis : Bool
  analysis_levels : ℤ
  depth_explanation : PyStr
deriving DecidableEq

namespace ReasoningDepthAgent

/-- The default dict returned when `_parse_response` catches a
`JSONDecodeError`/`ValueError`/`KeyError` (message `str(e)`). -/
def failDict (msg : PyStr) : RDDict :=
  { score := 0.5
    has_causal_analysis := false
    has_comparative_analysis := false
    analysis_levels := 1
    depth_explanation := "Failed to parse analysis result: ".data ++ msg }

/-- The fallback dict returned when `analyze` catches any exception. -/
def errDict (msg : PyStr) : RDDict :=
  { score := 0.5
    has_causal_analysis := false
    has_comparative_analysis := false
    analysis_levels := 1
    depth_explanation := "Error during analysis: ".data ++ msg }

/-- The body of `_parse_response` after `json.loads` succeeded: the dict
literal of lines 83-89, with each value coerced and clamped in source
order.  Coercion errors propagate as exceptions. -/
def parseJson (result : Json) : Except PyErr RDDict :=
  match getFloatD result ("score".data) 0.5 with
  | .error e => .error e
  | .ok score =>
  match getBoolD result ("has_causal_analysis".data) false with
  | .error e => .error e
  | .ok hca =>
  match getBoolD result ("has_comparative_analysis".data) false with
  | .error e => .error e
  | .ok hcm =>
  match getIntD result ("analysis_levels".data) 1 with
  | .error e => .error e
  | .ok lv =>
  match getStrD result ("depth_explanation".data) [] with
  | .error e => .error e
  | .ok ex =>
    .ok { score := clamp01 score
          has_causal_analysis := hca
          has_comparative_analysis := hcm
          analysis_levels := max 1 (min 5 lv)
          depth_explanation := ex }

/-- `_parse_response`: strip fences, decode, coerce; `JSONDecodeError`,
`ValueError` and `KeyError` are caught and turned into `failDict`, other
exceptions escape. -/
def parse_response (loads : Loads) (response_text : PyStr) : Except PyErr RDDict :=
  match loads (stripFences response_text) with
  | .error m => .ok (failDict m)
  | .ok result =>
    match parseJson result with
    | .ok d => .ok d
    | .error e => if caughtInParse e then .ok (failDict (pyErrMsg e)) else .error e

/-- `analyze`: invoke the LLM and parse; any exception yields `errDict`. -/
def analyze (loads : Loads) (llm : LLM) (article_text : PyStr) : RDDict :=
  match llm article_text with
  | .error e => errDict e
  | .ok response =>
    match parse_response loads response with
    | .ok d => d
    | .error e => errDict (pyErrMsg e)

end ReasoningDepthAgent

/-! ## ArgumentStructureAgent (src/insight_engine/agents/argument_structure_agent.py) -/

/-- One entry built by `_parse_components`: the raw JSON values of the
`type`/`content`/`location` keys (no coercion is applied in the agent). -/
structure CompDict where
  type : Json
  content : Json
  location : Json

/-- The dict returned by `ArgumentStructureAgent.analyze`. -/
structure ASDict where
  score : ℚ
  has_clear_structure : Bool
  paragraph_coherence : ℚ
  argument_components : List CompDict
  structure_explanation : PyStr

namespace ArgumentStructureAgent

/-- `_parse_components`: keep only dict entries, reading each field with a
default; non-dict entries are skipped. -/
def parse_components (components_data : List Json) : List CompDict :=
  components_data.filterMap (fun comp =>
    match comp with
    | .obj fs =>
      some { type := (jsonGet fs ("type".data)).getD (.str ("unknown".data))
             content := (jsonGet fs ("content".data)).getD (.str [])
             location := (jsonGet fs ("location".data)).getD (.str []) }
    | _ => none)

/-- Parse-failure default (lines 95-101). -/
def failDict (msg : PyStr) : ASDict :=
  { score := 0.5
    has_clear_structure := false
    paragraph_coherence := 0.5
    argument_components := []
    structure_explanation := "Failed to parse analysis result: ".data ++ msg }

/-- `analyze`-level fallback (lines 32-38). -/
def errDict (msg : PyStr) : ASDict :=
  { score := 0.5
    has_clear_structure := false
    paragraph_coherence := 0.5
    argument_components := []
    structure_explanation := "Error during analysis: ".data ++ msg }

/-- Lines 86-92: the dict literal, in source evaluation order; iterating a
non-iterable `argument_components` value raises `TypeError`. -/
def parseJson (result : Json) : Except PyErr ASDict :=
  match getFloatD result ("score".data) 0.5 with
  | .error e => .error e
  | .ok score =>
  match getBoolD result ("has_clear_structure".data) false with
  | .error e => .error e
  | .ok hcs =>
  match getFloatD result ("paragraph_coherence".data) 0.5 with
  | .error e => .error e
  | .ok pc =>
  match getRawD result ("argument_components".data) (.arr []) with
  | .error e => .error e
  | .ok compsData =>
  match pyIter compsData with
  | .error e => .error e
  | .ok items =>
  match getStrD result ("structure_explanation".data) [] with
  | .error e => .error e
  | .ok ex =>
    .ok { score := clamp01 score
          has_clear_structure := hcs
          paragraph_coherence := clamp01 pc
          argument_components := parse_components items
          structure_explanation := ex }

/-- `_parse_response` for the argument-structure agent. -/
def parse_response (loads : Loads) (response_text : PyStr) : Except PyErr ASDict :=
  match loads (stripFences response_text) with
  | .error m => .ok (failDict m)
  | .ok result =>
    match parseJson result with
    | .ok d => .ok d
    | .error e => if caughtInParse e then .ok (failDict (pyErrMsg e)) else .error e

/-- `analyze` for the argument-structure agent. -/
def analyze (loads : Loads) (llm : LLM) (article_text : PyStr) : ASDict :=
  match llm article_text with
  | .error e => errDict e
  | .ok response =>
    match parse_response loads response with
    | .ok d => d
    | .error e => errDict (pyErrMsg e)

end ArgumentStructureAgent

/-! ## ConsistencyAgent (src/insight_engine/agents/consistency_agent.py) -/

/-- The dict returned by `ConsistencyAgent.analyze`. -/
structure CSDict where
  score : ℚ
  contradictions : List PyStr
  consistency_explanation : PyStr
deriving DecidableEq

namespace ConsistencyAgent

/-- Parse-failure default (lines 93-97). -/
def failDict (msg : PyStr) : CSDict :=
  { score := 0.7
    contradictions := []
    consistency_explanation := "Failed to parse analysis result: ".data ++ msg }

/-- `analyze`-level fallback (lines 31-35). -/
def errDict (msg : PyStr) : CSDict :=
  { score := 0.7
    contradictions := []
    consistency_explanation := "Error during analysis: ".data ++ msg }

/-- Lines 82-90: fetch `contradictions` (replaced by `[]` when not a
list), then the dict literal in source order. -/
def parseJson (result : Json) : Except PyErr CSDict :=
  match getRawD result ("contradictions".data) (.arr []) with
  | .error e => .error e
  | .ok raw =>
  let contradictions : List Json :=
    match raw with
    | .arr xs => xs
    | _ => []
  match getFloatD result ("score".data) 0.7 with
  | .error e => .error e
  | .ok score =>
  match getStrD result ("consistency_explanation".data) [] with
  | .error e => .error e
  | .ok ex =>
    .ok { score := clamp01 score
          contradictions := contradictions.map pyToStr
          consistency_explanation := ex }

/-- `_parse_response` for the consistency agent. -/
def parse_response (loads : Loads) (response_text : PyStr) : Except PyErr CSDict :=
  match loads (stripFences response_text) with
  | .error m => .ok (failDict m)
  | .ok result =>
    match parseJson result with
    | .ok d => .ok d
    | .error e => if caughtInParse e then .ok (failDict (pyErrMsg e)) else .error e

/-- `analyze` for the consistency agent. -/
def analyze (loads : Loads) (llm : LLM) (article_text : PyStr) : CSDict :=
  match llm article_text with
  | .error e => errDict e
  | .ok response =>
    match parse_response loads response with
    | .ok d => d
    | .error e => errDict (pyErrMsg e)

end ConsistencyAgent

/-! ## LogicalFallacyAgent (src/insight_engine/agents/logical_fallacy_agent.py) -/

/-- One entry built by the fallacy loop (lines 90-98): raw JSON values for
`type`/`location`/`description`, clamped float for `severity`. -/
structure FallacyDict where
  type : Json
  location : Json
  description : Json
  severity : ℚ

/-- The dict returned by `LogicalFallacyAgent.analyze`. -/
structure LFDict where
  score : ℚ
  fallacies : List FallacyDict
  fallacy_explanation : PyStr

namespace LogicalFallacyAgent

/-- Parse-failure default (lines 114-118). -/
def failDict (msg : PyStr) : LFDict :=
  { score := 0.7
    fallacies := []
    fallacy_explanation := "Failed to parse analysis result: ".data ++ msg }

/-- `analyze`-level fallback (lines 32-36). -/
def errDict (msg : PyStr) : LFDict :=
  { score := 0.7
    fallacies := []
    fallacy_explanation := "Error during analysis: ".data ++ msg }

/-- The loop of lines 89-98: keep dict entries, coercing `severity` with
`float` (which may raise) and clamping it; non-dict entries are skipped. -/
def parseFallacies : List Json → Except PyErr (List FallacyDict)
  | [] => .ok []
  | f :: rest =>
    match f with
    | .obj fs =>
      (match pyFloat ((jsonGet fs ("severity".data)).getD (.num 0.5)) with
       | .error e => .error e
       | .ok sev =>
         match parseFallacies rest with
         | .error e => .error e
         | .ok tail =>
           .ok ({ type := (jsonGet fs ("type".data)).getD (.str ("overgeneralization".data))
                  location := (jsonGet fs ("location".data)).getD (.str [])
                  description := (jsonGet fs ("description".data)).getD (.str [])
                  severity := clamp01 sev } :: tail))
    | _ => parseFallacies rest

/-- Lines 89-111: parse the fallacies, derive the score as the inverse of
the average severity when the model supplied no top-level `score`, and
assemble the dict in source order. -/
def parseJson (result : Json) : Except PyErr LFDict :=
  match getRawD result ("fallacies".data) (.arr []) with
  | .error e => .error e
  | .ok raw =>
  match pyIter raw with
  | .error e => .error e
  | .ok items =>
  match parseFallacies items with
  | .error e => .error e
  | .ok fallacies =>
  let derived : ℚ :=
    if fallacies.isEmpty then 1
    else max 0 (1 - (fallacies.map (fun f => f.severity)).sum / (fallacies.length : ℚ))
  match pyGet result ("score".data) with
  | .error e => .error e
  | .ok scoreOpt =>
  match (match scoreOpt with
         | some v => pyFloat v
         | none => .ok derived) with
  | .error e => .error e
  | .ok score =>
  match getStrD result ("fallacy_explanation".data) [] with
  | .error e => .error e
  | .ok ex =>
    .ok { score := clamp01 score
          fallacies := fallacies
          fallacy_explanation := ex }

/-- `_parse_response` for the logical-fallacy agent. -/
def parse_response (loads : Loads) (response_text : PyStr) : Except PyErr LFDict :=
  match loads (stripFences response_text) with
  | .error m => .ok (failDict m)
  | .ok result =>
    match parseJson result with
    | .ok d => .ok d
    | .error e => if caughtInParse e then .ok (failDict (pyErrMsg e)) else .error e

/-- `analyze` for the logical-fallacy agent. -/
def analyze (loads : Loads) (llm : LLM) (article_text : PyStr) : LFDict :=
  match llm article_text with
  | .error e => errDict e
  | .ok response =>
    match parse_response loads response with
    | .ok d => d
    | .error e => errDict (pyErrMsg e)

end LogicalFallacyAgent

/-! ## Pydantic data model (src/insight_engine/models/evaluation.py)

Model construction `Model(**data)` validates the fields: `Field(ge=…, le=…)`
bounds are checked, `LogicalFallacyType` (a `str` `Enum`) accepts exactly
its nine member values, and plain `str` fields accept only strings
(pydantic v2; `langchain_openai`, which the agents import, requires
pydantic v2).  A failed validation raises `ValidationError`, modeled as
`Except PyStr` with an abstract message. -/

/-- The nine `LogicalFallacyType` enum values. -/
def fallacyTypeValues : List PyStr :=
  [ "overgeneralization".data, "causal_reversal".data, "false_dilemma".data,
    "slippery_slope".data, "ad_hominem".data, "circular_reasoning".data,
    "strawman".data, "hasty_generalization".data, "post_hoc".data ]

/-- Validated `ReasoningDepthResult`. -/
structure ReasoningDepthResult where
  score : ℚ
  has_causal_analysis : Bool
  has_comparative_analysis : Bool
  analysis_levels : ℤ
  depth_explanation : PyStr

/-- Validated `ArgumentComponent`. -/
structure ArgumentComponent where
  type : PyStr
  content : PyStr
  location : PyStr

/-- Validated `ArgumentStructureResult`. -/
structure ArgumentStructureResult where
  score : ℚ
  has_clear_structure : Bool
  paragraph_coherence : ℚ
  argument_components : List ArgumentComponent
  structure_explanation : PyStr

/-- Validated `ConsistencyResult`. -/
structure ConsistencyResult where
  score : ℚ
  contradictions : List PyStr
  consistency_explanation : PyStr

/-- Validated `LogicalFallacy` (its `type` is one of `fallacyTypeValues`). -/
structure LogicalFallacy where
  type : PyStr
  location : PyStr
  description : PyStr
  severity : ℚ

/-- Validated `LogicalFallacyResult`. -/
structure LogicalFallacyResult where
  score : ℚ
  fallacies : List LogicalFallacy
  fallacy_explanation : PyStr

/-- Validated `ReasoningLogicEvaluation`: the complete report, with all
four component results mandatory. -/
structure ReasoningLogicEvaluation where
  article_title : Option PyStr
  overall_score : ℚ
  reasoning_depth : ReasoningDepthResult
  argument_structure : ArgumentStructureResult
  consistency : ConsistencyResult
  logical_fallacies : LogicalFallacyResult
  strengths : List PyStr
  weaknesses : List PyStr
  recommendations : List PyStr

/-- Pydantic validation of a `str` field: only strings are accepted. -/
def validateStr (v : Json) : Except PyStr PyStr :=
  match v with
  | .str s => .ok s
  | _ => .error ("Input should be a valid string".data)

/-- Pydantic validation of a `float` field with `ge=0.0, le=1.0`. -/
def validateFloat01 (q : ℚ) : Except PyStr ℚ :=
  if 0 ≤ q ∧ q ≤ 1 then .ok q
  else .error ("Input should be within the unit interval".data)

/-- `ReasoningDepthResult(**d)`. -/
def validateRD (d : RDDict) : Except PyStr ReasoningDepthResult :=
  match validateFloat01 d.score with
  | .error e => .error e
  | .ok score =>
    .ok { score := score
          has_causal_analysis := d.has_causal_analysis
          has_comparative_analysis := d.has_comparative_analysis
          analysis_levels := d.analysis_levels
          depth_explanation := d.depth_explanation }

/-- `ArgumentComponent(**comp)`. -/
def validateComp (c : CompDict) : Except PyStr ArgumentComponent :=
  match validateStr c.type with
  | .error e => .error e
  | .ok t =>
  match validateStr c.content with
  | .error e => .error e
  | .ok ct =>
  match validateStr c.location with
  | .error e => .error e
  | .ok loc => .ok { type := t, content := ct, location := loc }

/-- The list comprehension of evaluator lines 70-73. -/
def validateComps : List CompDict → Except PyStr (List ArgumentComponent)
  | [] => .ok []
  | c :: rest =>
    match validateComp c with
    | .error e => .error e
    | .ok v =>
      match validateComps rest with
      | .error e => .error e
      | .ok vs => .ok (v :: vs)

/-- `ArgumentStructureResult(**data, argument_components=components)`. -/
def validateAS (d : ASDict) (comps : List ArgumentComponent) :
    Except PyStr ArgumentStructureResult :=
  match validateFloat01 d.score with
  | .error e => .error e
  | .ok score =>
  match validateFloat01 d.paragraph_coherence with
  | .error e => .error e
  | .ok pc =>
    .ok { score := score
          has_clear_structure := d.has_clear_structure
          paragraph_coherence := pc
          argument_components := comps
          structure_explanation := d.structure_explanation }

/-- `LogicalFallacy(**f)`: the `type` must be one of the nine enum values,
`location`/`description` must be strings, `severity` must lie in [0,1]. -/
def validateFallacy (f : FallacyDict) : Except PyStr LogicalFallacy :=
  match validateStr f.type with
  | .error e => .error e
  | .ok t =>
    if fallacyTypeValues.contains t then
      match validateStr f.location with
      | .error e => .error e
      | .ok loc =>
      match validateStr f.description with
      | .error e => .error e
      | .ok desc =>
      match validateFloat01 f.severity with
      | .error e => .error e
      | .ok sev => .ok { type := t, location := loc, description := desc, severity := sev }
    else .error ("Input should be a member of LogicalFallacyType".data)

/-- The list comprehension of evaluator lines 82-85. -/
def validateFallacies : List FallacyDict → Except PyStr (List LogicalFallacy)
  | [] => .ok []
  | f :: rest =>
    match validateFallacy f with
    | .error e => .error e
    | .ok v =>
      match validateFallacies rest with
      | .error e => .error e
      | .ok vs => .ok (v :: vs)

/-- `LogicalFallacyResult(**data, fallacies=fallacies)`. -/
def validateLF (d : LFDict) (fallacies : List LogicalFallacy) :
    Except PyStr LogicalFallacyResult :=
  match validateFloat01 d.score with
  | .error e => .error e
  | .ok score =>
    .ok { score := score
          fallacies := fallacies
          fallacy_explanation := d.fallacy_explanation }

/-- `ConsistencyResult(**d)`. -/
def validateCS (d : CSDict) : Except PyStr ConsistencyResult :=
  match validateFloat01 d.score with
  | .error e => .error e
  | .ok score =>
    .ok { score := score
          contradictions := d.contradictions
          consistency_explanation := d.consistency_explanation }

/-! ## Orchestrator (src/insight_engine/evaluators/reasoning_logic_evaluator.py) -/

/-- Round to the nearest integer, ties to even (the rounding used by
Python's `round`).  `Rat.floor` is used rather than `⌊⌋` so the function
evaluates by kernel reduction; the two agree (`Rat.floor_def`). -/
def roundHalfEven (q : ℚ) : ℤ :=
  let f := q.floor
  let r := q - (f : ℚ)
  if r < 1 / 2 then f
  else if 1 / 2 < r then f + 1
  else if f % 2 = 0 then f else f + 1

/-- Python `round(x, 3)`, on the exact rational value.  (The source rounds
a binary double; the two agree at every value reached by the claims, the
only possible divergence being exact decimal ties that binary doubles
cannot represent.) -/
def round3 (q : ℚ) : ℚ := (roundHalfEven (q * 1000) : ℚ) / 1000

namespace ReasoningLogicEvaluator

/-- `_calculate_overall_score` (lines 125-148): the fixed weighted sum,
rounded to three decimal places. -/
def calculate_overall_score (reasoning_depth : ReasoningDepthResult)
    (argument_structure : ArgumentStructureResult)
    (consistency : ConsistencyResult)
    (logical_fallacies : LogicalFallacyResult) : ℚ :=
  round3 (reasoning_depth.score * 0.30
    + argument_structure.score * 0.30
    + consistency.score * 0.25
    + logical_fallacies.score * 0.15)

/-- Strengths contributed by the reasoning-depth block (lines 162-168). -/
def rdStrengths (rd : ReasoningDepthResult) : List PyStr :=
  if rd.score ≥ 0.7 then
    (if rd.has_causal_analysis then ["包含清晰的因果分析".data] else [])
    ++ (if rd.has_comparative_analysis then ["进行了有效的比较分析".data] else [])
    ++ (if rd.analysis_levels ≥ 3 then
          ["具有".data ++ (toString rd.analysis_levels).data ++ "层次的深入分析".data]
        else [])
  else []

/-- Weaknesses contributed by the reasoning-depth block (lines 169-175). -/
def rdWeaknesses (rd : ReasoningDepthResult) : List PyStr :=
  if rd.score ≥ 0.7 then []
  else
    (if !rd.has_causal_analysis then ["缺乏因果关系分析".data] else [])
    ++ (if !rd.has_comparative_analysis then ["缺少比较分析".data] else [])
    ++ (if rd.analysis_levels < 2 then ["分析层次不够深入".data] else [])

/-- Strengths contributed by the argument-structure block (lines 178-182). -/
def asStrengths (a : ArgumentStructureResult) : List PyStr :=
  if a.score ≥ 0.7 then
    (if a.has_clear_structure then ["论证结构清晰有序".data] else [])
    ++ (if a.paragraph_coherence ≥ 0.7 then ["段落衔接自然流畅".data] else [])
  else []

/-- Weaknesses contributed by the argument-structure block (lines 183-187):
note the asymmetric coherence threshold 0.6. -/
def asWeaknesses (a : ArgumentStructureResult) : List PyStr :=
  if a.score ≥ 0.7 then []
  else
    (if !a.has_clear_structure then ["论证结构不够清晰".data] else [])
    ++ (if a.paragraph_coherence < 0.6 then ["段落衔接有待改进".data] else [])

/-- Strengths contributed by the consistency block (lines 190-191). -/
def csStrengths (c : ConsistencyResult) : List PyStr :=
  if c.score ≥ 0.8 then ["内部逻辑一致，无明显矛盾".data] else []

/-- Weaknesses contributed by the consistency block (lines 192-193):
emitted only in the `elif` branch (score below 0.8 and some
contradiction present). -/
def csWeaknesses (c : ConsistencyResult) : List PyStr :=
  if c.score ≥ 0.8 then []
  else if !c.contradictions.isEmpty then
    ["存在".data ++ (toString c.contradictions.length).data ++ "处内部矛盾".data]
  else []

/-- Strengths contributed by the logical-fallacy block (lines 196-197). -/
def lfStrengths (l : LogicalFallacyResult) : List PyStr :=
  if l.score ≥ 0.8 then ["论证严谨，无明显逻辑谬误".data] else []

/-- Weaknesses contributed by the logical-fallacy block (lines 198-199). -/
def lfWeaknesses (l : LogicalFallacyResult) : List PyStr :=
  if l.score ≥ 0.8 then []
  else if !l.fallacies.isEmpty then
    ["检测到".data ++ (toString l.fallacies.length).data ++ "个逻辑谬误".data]
  else []

/-- `_identify_strengths_weaknesses` (lines 150-201): the two lists are
accumulated block by block in source order. -/
def identify_strengths_weaknesses (rd : ReasoningDepthResult)
    (a : ArgumentStructureResult) (c : ConsistencyResult)
    (l : LogicalFallacyResult) : List PyStr × List PyStr :=
  (rdStrengths rd ++ asStrengths a ++ csStrengths c ++ lfStrengths l,
   rdWeaknesses rd ++ asWeaknesses a ++ csWeaknesses c ++ lfWeaknesses l)

/-- Recommendations contributed by the reasoning-depth block (214-220). -/
def rdRecs (rd : ReasoningDepthResult) : List PyStr :=
  if rd.score < 0.7 then
    (if !rd.has_causal_analysis then ["增加因果关系分析，探讨现象背后的原因和影响".data] else [])
    ++ (if !rd.has_comparative_analysis then ["加入比较分析，如历史对比或同行业对比".data] else [])
    ++ (if rd.analysis_levels < 2 then ["深化分析层次，从表面现象深入到深层原因和潜在影响".data] else [])
  else []

/-- Recommendations contributed by the argument-structure block (223-227). -/
def asRecs (a : ArgumentStructureResult) : List PyStr :=
  if a.score < 0.7 then
    (if !a.has_clear_structure then ["优化文章结构，确保论点、论据、结论的逻辑顺序清晰".data] else [])
    ++ (if a.paragraph_coherence < 0.6 then ["改善段落间的衔接，使用过渡句使论述更流畅".data] else [])
  else []

/-- Recommendation contributed by the consistency block (230-231). -/
def csRecs (c : ConsistencyResult) : List PyStr :=
  if c.score < 0.8 ∧ !c.contradictions.isEmpty then
    ["检查并解决内部矛盾，确保论述前后一致".data]
  else []

/-- Recommendations contributed by the fallacy block (234-236): one entry
per fallacy, limited to the first two detected (`fallacies[:2]`). -/
def lfRecs (l : LogicalFallacyResult) : List PyStr :=
  if !l.fallacies.isEmpty then
    (l.fallacies.take 2).map (fun f => "修正逻辑谬误：".data ++ f.description)
  else []

/-- `_generate_recommendations` (lines 203-238). -/
def generate_recommendations (rd : ReasoningDepthResult)
    (a : ArgumentStructureResult) (c : ConsistencyResult)
    (l : LogicalFallacyResult) : List PyStr :=
  rdRecs rd ++ asRecs a ++ csRecs c ++ lfRecs l

/-- `ReasoningLogicEvaluation(...)` construction at lines 111-121: the
`overall_score` field carries `ge=0.0, le=1.0`. -/
def validateEvaluation (ev : ReasoningLogicEvaluation) :
    Except PyStr ReasoningLogicEvaluation :=
  match validateFloat01 ev.overall_score with
  | .error e => .error e
  | .ok _ => .ok ev

/-- `evaluate` (lines 51-123): run the four agents in source order,
convert each dict into its pydantic model (which validates and may
raise), aggregate, and assemble the final report.  Raised validation
errors propagate to the caller as `.error`. -/
def evaluate (loads : Loads) (llmRD llmAS llmLF llmCS : LLM)
    (article_text : PyStr) (article_title : Option PyStr) :
    Except PyStr ReasoningLogicEvaluation :=
  match validateRD (ReasoningDepthAgent.analyze loads llmRD article_text) with
  | .error e => .error e
  | .ok reasoning_depth =>
  let asData := ArgumentStructureAgent.analyze loads llmAS article_text
  match validateComps asData.argument_components with
  | .error e => .error e
  | .ok components =>
  match validateAS asData components with
  | .error e => .error e
  | .ok argument_structure =>
  let lfData := LogicalFallacyAgent.analyze loads llmLF article_text
  match validateFallacies lfData.fallacies with
  | .error e => .error e
  | .ok fallacies =>
  match validateLF lfData fallacies with
  | .error e => .error e
  | .ok logical_fallacies =>
  match validateCS (ConsistencyAgent.analyze loads llmCS article_text) with
  | .error e => .error e
  | .ok consistency =>
  let overall_score :=
    calculate_overall_score reasoning_depth argument_structure consistency logical_fallacies
  let sw := identify_strengths_weaknesses reasoning_depth argument_structure consistency logical_fallacies
  let recommendations :=
    generate_recommendations reasoning_depth argument_structure consistency logical_fallacies
  validateEvaluation
    { article_title := article_title
      overall_score := overall_score
      reasoning_depth := reasoning_depth
      argument_structure := argument_structure
      consistency := consistency
      logical_fallacies := logical_fallacies
      strengths := sw.1
      weaknesses := sw.2
      recommendations := recommendations }

end ReasoningLogicEvaluator

/-- Whether an `Except` computation succeeded. -/
def isOkB {ε α : Type} : Except ε α → Bool
  | .ok _ => true
  | .error _ => false

/-- Pydantic v2 `str`-field admissibility of a raw JSON value. -/
def compFieldsOk (c : CompDict) : Bool :=
  isStr c.type && isStr c.content && isStr c.location

/-- Admissibility of a parsed fallacy dict for `LogicalFallacy(**f)`:
its raw `type` must be a string naming one of the nine enum members and
`location`/`description` must be strings.  (`severity` is always within
bounds because the agent clamps it.) -/
def fallacyFieldsOk (f : FallacyDict) : Bool :=
  (match f.type with
   | Json.str s => fallacyTypeValues.contains s
   | _ => false)
  && isStr f.location && isStr f.description

/-- Whether a fallacy-list entry's `severity` value coerces with `float`
(absent severities default to 0.5 and always coerce). -/
def sevEntryOk (j : Json) : Bool :=
  match j with
  | .obj fs => isOkB (pyFloat ((jsonGet fs ("severity".data)).getD (.num 0.5)))
  | _ => true

/-- Whether the `fallacies` field of a response object is absent, or
iterable with every object entry's severity coercible. -/
def fallaciesFieldOk (fs : List (PyStr × Json)) : Bool :=
  match jsonGet fs ("fallacies".data) with
  | none => true
  | some v =>
    match pyIter v with
    | .error _ => false
    | .ok items => items.all sevEntryOk

/-- The score of a parser outcome, when it produced one. -/
def lfRespScore : Except PyErr LFDict → Option ℚ
  | .ok d => some d.score
  | .error _ => none

/-! ## Helper lemmas -/

theorem clamp01_nonneg (q : ℚ) : 0 ≤ clamp01 q := le_max_left 0 _

theorem clamp01_le_one (q : ℚ) : clamp01 q ≤ 1 :=
  max_le (by norm_num) (min_le_left 1 q)

theorem clamp01_bounds (q : ℚ) : 0 ≤ clamp01 q ∧ clamp01 q ≤ 1 :=
  ⟨clamp01_nonneg q, clamp01_le_one q⟩

theorem clamp01_max_zero (q : ℚ) : clamp01 (max 0 q) = clamp01 q := by
  unfold clamp01
  rcases le_total q 0 with h | h
  · rw [max_eq_left h, min_eq_right (h.trans (by norm_num)),
      min_eq_right (le_refl (0 : ℚ) |>.trans (by norm_num)), max_eq_left h]
    exact max_self 0
  · rw [max_eq_right h]

theorem clamp01_eq_self {q : ℚ} (h0 : 0 ≤ q) (h1 : q ≤ 1) : clamp01 q = q := by
  unfold clamp01
  rw [min_eq_right h1, max_eq_right h0]

theorem startsW_append_self (p m : PyStr) : startsW (p ++ m) p = true := by
  induction p with
  | nil => simp [startsW]
  | cons c cs ih => simp [startsW, ih]

theorem rat_floor_eq_floor (q : ℚ) : q.floor = ⌊q⌋ := by
  rw [Rat.floor_def', Rat.floor_def]

theorem roundHalfEven_intCast (n : ℤ) : roundHalfEven ((n : ℚ)) = n := by
  unfold roundHalfEven
  norm_num [rat_floor_eq_floor, Int.floor_intCast]

theorem round3_int_over_1000 (n : ℤ) : round3 ((n : ℚ) / 1000) = (n : ℚ) / 1000 := by
  unfold round3
  have h : ((n : ℚ)) / 1000 * 1000 = (n : ℚ) := by
    field_simp
  rw [h, roundHalfEven_intCast]

/-- Score bounds for the reasoning-depth coercion step. -/
theorem RD_parseJson_bounds (j : Json) (d : RDDict)
    (h : ReasoningDepthAgent.parseJson j = .ok d) : 0 ≤ d.score ∧ d.score ≤ 1 := by
  unfold ReasoningDepthAgent.parseJson at h
  repeat' split at h
  all_goals first
    | exact Except.noConfusion h
    | (injection h with h2; subst h2; exact clamp01_bounds _)

/-- Score bounds for the reasoning-depth parser. -/
theorem RD_parse_response_bounds (loads : Loads) (t : PyStr) (d : RDDict)
    (h : ReasoningDepthAgent.parse_response loads t = .ok d) :
    0 ≤ d.score ∧ d.score ≤ 1 := by
  unfold ReasoningDepthAgent.parse_response at h
  split at h
  · injection h with h2; subst h2
    constructor <;> norm_num [ReasoningDepthAgent.failDict]
  · split at h
    · rename_i hok
      injection h with h2; subst h2
      exact RD_parseJson_bounds _ _ hok
    · split at h
      · injection h with h2; subst h2
        constructor <;> norm_num [ReasoningDepthAgent.failDict]
      · exact Except.noConfusion h

/-- Score bounds for `ReasoningDepthAgent.analyze`. -/
theorem RD_analyze_bounds (loads : Loads) (llm : LLM) (t : PyStr) :
    0 ≤ (ReasoningDepthAgent.analyze loads llm t).score ∧
      (ReasoningDepthAgent.analyze loads llm t).score ≤ 1 := by
  unfold ReasoningDepthAgent.analyze
  split
  · constructor <;> norm_num [ReasoningDepthAgent.errDict]
  · split
    · rename_i hok; exact RD_parse_response_bounds _ _ _ hok
    · constructor <;> norm_num [ReasoningDepthAgent.errDict]

/-- Score and coherence bounds for the argument-structure coercion step. -/
theorem AS_parseJson_bounds (j : Json) (d : ASDict)
    (h : ArgumentStructureAgent.parseJson j = .ok d) :
    (0 ≤ d.score ∧ d.score ≤ 1) ∧
      (0 ≤ d.paragraph_coherence ∧ d.paragraph_coherence ≤ 1) := by
  unfold ArgumentStructureAgent.parseJson at h
  repeat' split at h
  all_goals first
    | exact Except.noConfusion h
    | (injection h with h2; subst h2; exact ⟨clamp01_bounds _, clamp01_bounds _⟩)

/-- Score and coherence bounds for the argument-structure parser. -/
theorem AS_parse_response_bounds (loads : Loads) (t : PyStr) (d : ASDict)
    (h : ArgumentStructureAgent.parse_response loads t = .ok d) :
    (0 ≤ d.score ∧ d.score ≤ 1) ∧
      (0 ≤ d.paragraph_coherence ∧ d.paragraph_coherence ≤ 1) := by
  unfold ArgumentStructureAgent.parse_response at h
  split at h
  · injection h with h2; subst h2
    constructor <;> constructor <;> norm_num [ArgumentStructureAgent.failDict]
  · split at h
    · rename_i hok
      injection h with h2; subst h2
      exact AS_parseJson_bounds _ _ hok
    · split at h
      · injection h with h2; subst h2
        constructor <;> constructor <;> norm_num [ArgumentStructureAgent.failDict]
      · exact Except.noConfusion h

/-- Score and coherence bounds for `ArgumentStructureAgent.analyze`. -/
theorem AS_analyze_bounds (loads : Loads) (llm : LLM) (t : PyStr) :
    (0 ≤ (ArgumentStructureAgent.analyze loads llm t).score ∧
      (ArgumentStructureAgent.analyze loads llm t).score ≤ 1) ∧
    (0 ≤ (ArgumentStructureAgent.analyze loads llm t).paragraph_coherence ∧
      (ArgumentStructureAgent.analyze loads llm t).paragraph_coherence ≤ 1) := by
  unfold ArgumentStructureAgent.analyze
  split
  · constructor <;> constructor <;> norm_num [ArgumentStructureAgent.errDict]
  · split
    · rename_i hok; exact AS_parse_response_bounds _ _ _ hok
    · constructor <;> constructor <;> norm_num [ArgumentStructureAgent.errDict]

/-- Score bounds for the consistency coercion step. -/
theorem CS_parseJson_bounds (j : Json) (d : CSDict)
    (h : ConsistencyAgent.parseJson j = .ok d) : 0 ≤ d.score ∧ d.score ≤ 1 := by
  unfold ConsistencyAgent.parseJson at h
  repeat' split at h
  all_goals first
    | exact Except.noConfusion h
    | (injection h with h2; subst h2; exact clamp01_bounds _)

/-- Score bounds for the consistency parser. -/
theorem CS_parse_response_bounds (loads : Loads) (t : PyStr) (d : CSDict)
    (h : ConsistencyAgent.parse_response loads t = .ok d) :
    0 ≤ d.score ∧ d.score ≤ 1 := by
  unfold ConsistencyAgent.parse_response at h
  split at h
  · injection h with h2; subst h2
    constructor <;> norm_num [ConsistencyAgent.failDict]
  · split at h
    · rename_i hok
      injection h with h2; subst h2
      exact CS_parseJson_bounds _ _ hok
    · split at h
      · injection h with h2; subst h2
        constructor <;> norm_num [ConsistencyAgent.failDict]
      · exact Except.noConfusion h

/-- Score bounds for `ConsistencyAgent.analyze`. -/
theorem CS_analyze_bounds (loads : Loads) (llm : LLM) (t : PyStr) :
    0 ≤ (ConsistencyAgent.analyze loads llm t).score ∧
      (ConsistencyAgent.analyze loads llm t).score ≤ 1 := by
  unfold ConsistencyAgent.analyze
  split
  · constructor <;> norm_num [ConsistencyAgent.errDict]
  · split
    · rename_i hok; exact CS_parse_response_bounds _ _ _ hok
    · constructor <;> norm_num [ConsistencyAgent.errDict]

/-- Severity bounds for the fallacy loop: every retained entry's severity
was clamped. -/
theorem parseFallacies_sev (items : List Json) (l : List FallacyDict)
    (h : LogicalFallacyAgent.parseFallacies items = .ok l) :
    ∀ f ∈ l, 0 ≤ f.severity ∧ f.severity ≤ 1 := by
  induction items generalizing l with
  | nil =>
    injection h with h2
    subst h2
    simp
  | cons j rest ih =>
    unfold LogicalFallacyAgent.parseFallacies at h
    cases j with
    | obj fs =>
      dsimp only at h
      cases hsev : pyFloat ((jsonGet fs ("severity".data)).getD (.num 0.5)) with
      | error e => rw [hsev] at h; simp at h
      | ok sev =>
        rw [hsev] at h
        cases htail : LogicalFallacyAgent.parseFallacies rest with
        | error e => rw [htail] at h; simp at h
        | ok tail =>
          rw [htail] at h
          dsimp only at h
          injection h with h2
          subst h2
          intro f hf
          rcases List.mem_cons.mp hf with rfl | hf2
          · exact clamp01_bounds _
          · exact ih tail htail f hf2
    | null => exact ih l h
    | bool b => exact ih l h
    | num q => exact ih l h
    | str s => exact ih l h
    | arr xs => exact ih l h

/-- Score bounds of the fallacy coercion step, and origin of its
fallacy list. -/
theorem LF_parseJson_spec (j : Json) (d : LFDict)
    (h : LogicalFallacyAgent.parseJson j = .ok d) :
    (0 ≤ d.score ∧ d.score ≤ 1) ∧
      ∃ items, LogicalFallacyAgent.parseFallacies items = .ok d.fallacies := by
  unfold LogicalFallacyAgent.parseJson at h
  repeat' split at h
  all_goals first
    | exact Except.noConfusion h
    | (injection h with h2; subst h2; exact ⟨clamp01_bounds _, _, by assumption⟩)

/-- Score bounds for the logical-fallacy parser, and severity bounds of
every retained fallacy. -/
theorem LF_parse_response_bounds (loads : Loads) (t : PyStr) (d : LFDict)
    (h : LogicalFallacyAgent.parse_response loads t = .ok d) :
    (0 ≤ d.score ∧ d.score ≤ 1) ∧
      ∀ f ∈ d.fallacies, 0 ≤ f.severity ∧ f.severity ≤ 1 := by
  unfold LogicalFallacyAgent.parse_response at h
  split at h
  · injection h with h2; subst h2
    refine ⟨⟨?_, ?_⟩, ?_⟩ <;> simp [LogicalFallacyAgent.failDict] <;> norm_num
  · split at h
    · rename_i hok
      injection h with h2; subst h2
      obtain ⟨hb, items, hitems⟩ := LF_parseJson_spec _ _ hok
      exact ⟨hb, parseFallacies_sev _ _ hitems⟩
    · split at h
      · injection h with h2; subst h2
        refine ⟨⟨?_, ?_⟩, ?_⟩ <;> simp [LogicalFallacyAgent.failDict] <;> norm_num
      · exact Except.noConfusion h

/-- Score bounds for `LogicalFallacyAgent.analyze`, and severity bounds
of every retained fallacy. -/
theorem LF_analyze_bounds (loads : Loads) (llm : LLM) (t : PyStr) :
    (0 ≤ (LogicalFallacyAgent.analyze loads llm t).score ∧
      (LogicalFallacyAgent.analyze loads llm t).score ≤ 1) ∧
    ∀ f ∈ (LogicalFallacyAgent.analyze loads llm t).fallacies,
      0 ≤ f.severity ∧ f.severity ≤ 1 := by
  unfold LogicalFallacyAgent.analyze
  split
  · refine ⟨⟨?_, ?_⟩, ?_⟩ <;> simp [LogicalFallacyAgent.errDict] <;> norm_num
  · split
    · rename_i hok; exact LF_parse_response_bounds _ _ _ hok
    · refine ⟨⟨?_, ?_⟩, ?_⟩ <;> simp [LogicalFallacyAgent.errDict] <;> norm_num

/-! ## Claim theorems -/

/-- C2: for each of the four agents and for every input text and every
behaviour of the model and of the JSON decoder (including malformed
responses), the `score` field of the dict returned by `analyze` lies
within [0.0, 1.0]. -/
theorem C2_analyze_score_in_unit_interval (loads : Loads)
    (llmR llmA llmL llmC : LLM) (text : PyStr) :
    (0 ≤ (ReasoningDepthAgent.analyze loads llmR text).score ∧
      (ReasoningDepthAgent.analyze loads llmR text).score ≤ 1) ∧
    (0 ≤ (ArgumentStructureAgent.analyze loads llmA text).score ∧
      (ArgumentStructureAgent.analyze loads llmA text).score ≤ 1) ∧
    (0 ≤ (ConsistencyAgent.analyze loads llmC text).score ∧
      (ConsistencyAgent.analyze loads llmC text).score ≤ 1) ∧
    (0 ≤ (LogicalFallacyAgent.analyze loads llmL text).score ∧
      (LogicalFallacyAgent.analyze loads llmL text).score ≤ 1) :=
  ⟨RD_analyze_bounds loads llmR text,
   (AS_analyze_bounds loads llmA text).1,
   CS_analyze_bounds loads llmC text,
   (LF_analyze_bounds loads llmL text).1⟩

/-- C3: if the model's response text is syntactically invalid JSON after
fence stripping (the decoder rejects it), each agent's `analyze` returns
exactly the documented per-dimension fallback — ReasoningDepth: score
0.5, both booleans false, analysis_levels 1; ArgumentStructure: score
0.5, has_clear_structure false, paragraph_coherence 0.5, empty
components; Consistency: score 0.7, empty contradictions;
LogicalFallacy: score 0.7, empty fallacies — with an explanation string
naming the parse failure, rather than raising. -/
theorem C3_invalid_json_yields_documented_fallback (loads : Loads) (llm : LLM)
    (text resp m : PyStr)
    (hllm : llm text = .ok resp)
    (hdec : loads (stripFences resp) = .error m) :
    ((ReasoningDepthAgent.analyze loads llm text).score = 0.5 ∧
      (ReasoningDepthAgent.analyze loads llm text).has_causal_analysis = false ∧
      (ReasoningDepthAgent.analyze loads llm text).has_comparative_analysis = false ∧
      (ReasoningDepthAgent.analyze loads llm text).analysis_levels = 1 ∧
      startsW (ReasoningDepthAgent.analyze loads llm text).depth_explanation
        ("Failed to parse analysis result: ".data) = true) ∧
    ((ArgumentStructureAgent.analyze loads llm text).score = 0.5 ∧
      (ArgumentStructureAgent.analyze loads llm text).has_clear_structure = false ∧
      (ArgumentStructureAgent.analyze loads llm text).paragraph_coherence = 0.5 ∧
      (ArgumentStructureAgent.analyze loads llm text).argument_components = [] ∧
      startsW (ArgumentStructureAgent.analyze loads llm text).structure_explanation
        ("Failed to parse analysis result: ".data) = true) ∧
    ((ConsistencyAgent.analyze loads llm text).score = 0.7 ∧
      (ConsistencyAgent.analyze loads llm text).contradictions = [] ∧
      startsW (ConsistencyAgent.analyze loads llm text).consistency_explanation
        ("Failed to parse analysis result: ".data) = true) ∧
    ((LogicalFallacyAgent.analyze loads llm text).score = 0.7 ∧
      (LogicalFallacyAgent.analyze loads llm text).fallacies = [] ∧
      startsW (LogicalFallacyAgent.analyze loads llm text).fallacy_explanation
        ("Failed to parse analysis result: ".data) = true) := by
  have hrd : ReasoningDepthAgent.analyze loads llm text = ReasoningDepthAgent.failDict m := by
    unfold ReasoningDepthAgent.analyze ReasoningDepthAgent.parse_response
    rw [hllm]; dsimp only; rw [hdec]
  have has : ArgumentStructureAgent.analyze loads llm text = ArgumentStructureAgent.failDict m := by
    unfold ArgumentStructureAgent.analyze ArgumentStructureAgent.parse_response
    rw [hllm]; dsimp only; rw [hdec]
  have hcs : ConsistencyAgent.analyze loads llm text = ConsistencyAgent.failDict m := by
    unfold ConsistencyAgent.analyze ConsistencyAgent.parse_response
    rw [hllm]; dsimp only; rw [hdec]
  have hlf : LogicalFallacyAgent.analyze loads llm text = LogicalFallacyAgent.failDict m := by
    unfold LogicalFallacyAgent.analyze LogicalFallacyAgent.parse_response
    rw [hllm]; dsimp only; rw [hdec]
  rw [hrd, has, hcs, hlf]
  exact ⟨⟨rfl, rfl, rfl, rfl, startsW_append_self _ _⟩,
         ⟨rfl, rfl, rfl, rfl, startsW_append_self _ _⟩,
         ⟨rfl, rfl, startsW_append_self _ _⟩,
         ⟨rfl, rfl, startsW_append_self _ _⟩⟩

/-- A decoder behaviour that rejects every input. -/
def loadsRejecting : Loads := fun _ => Except.error ("Expecting value: line 1 column 1 (char 0)".data)

/-- A model behaviour answering a fixed non-JSON text. -/
def llmPlainText : LLM := fun _ => Except.ok ("not json".data)

/-- Witness for C3 at a concrete invocation. -/
theorem C3_witness :
    llmPlainText ("t".data) = .ok ("not json".data) ∧
    loadsRejecting (stripFences ("not json".data)) =
      .error ("Expecting value: line 1 column 1 (char 0)".data) ∧
    (((ReasoningDepthAgent.analyze loadsRejecting llmPlainText ("t".data)).score = 0.5 ∧
      (ReasoningDepthAgent.analyze loadsRejecting llmPlainText ("t".data)).has_causal_analysis = false ∧
      (ReasoningDepthAgent.analyze loadsRejecting llmPlainText ("t".data)).has_comparative_analysis = false ∧
      (ReasoningDepthAgent.analyze loadsRejecting llmPlainText ("t".data)).analysis_levels = 1 ∧
      startsW (ReasoningDepthAgent.analyze loadsRejecting llmPlainText ("t".data)).depth_explanation
        ("Failed to parse analysis result: ".data) = true) ∧
    ((ArgumentStructureAgent.analyze loadsRejecting llmPlainText ("t".data)).score = 0.5 ∧
      (ArgumentStructureAgent.analyze loadsRejecting llmPlainText ("t".data)).has_clear_structure = false ∧
      (ArgumentStructureAgent.analyze loadsRejecting llmPlainText ("t".data)).paragraph_coherence = 0.5 ∧
      (ArgumentStructureAgent.analyze loadsRejecting llmPlainText ("t".data)).argument_components = [] ∧
      startsW (ArgumentStructureAgent.analyze loadsRejecting llmPlainText ("t".data)).structure_explanation
        ("Failed to parse analysis result: ".data) = true) ∧
    ((ConsistencyAgent.analyze loadsRejecting llmPlainText ("t".data)).score = 0.7 ∧
      (ConsistencyAgent.analyze loadsRejecting llmPlainText ("t".data)).contradictions = [] ∧
      startsW (ConsistencyAgent.analyze loadsRejecting llmPlainText ("t".data)).consistency_explanation
        ("Failed to parse analysis result: ".data) = true) ∧
    ((LogicalFallacyAgent.analyze loadsRejecting llmPlainText ("t".data)).score = 0.7 ∧
      (LogicalFallacyAgent.analyze loadsRejecting llmPlainText ("t".data)).fallacies = [] ∧
      startsW (LogicalFallacyAgent.analyze loadsRejecting llmPlainText ("t".data)).fallacy_explanation
        ("Failed to parse analysis result: ".data) = true)) :=
  ⟨rfl, rfl,
   C3_invalid_json_yields_documented_fallback loadsRejecting llmPlainText
     ("t".data) ("not json".data) ("Expecting value: line 1 column 1 (char 0)".data) rfl rfl⟩

/-- C4 counterexample: at component scores 0.8, 0.6, 0.9, 0.7 the
orchestrator's overall score is 0.75, not the 0.765 the claim asserts
(0.8×0.30 + 0.6×0.30 + 0.9×0.25 + 0.7×0.15 = 0.75). -/
theorem C4_counterexample :
    ReasoningLogicEvaluator.calculate_overall_score
      (⟨0.8, true, true, 3, []⟩ : ReasoningDepthResult)
      (⟨0.6, true, 0.6, [], []⟩ : ArgumentStructureResult)
      (⟨0.9, [], []⟩ : ConsistencyResult)
      (⟨0.7, [], []⟩ : LogicalFallacyResult) = 0.75 ∧ (0.75 : ℚ) ≠ (0.765 : ℚ) := by
  constructor
  · show round3 ((0.8 : ℚ) * 0.30 + (0.6 : ℚ) * 0.30 + (0.9 : ℚ) * 0.25 + (0.7 : ℚ) * 0.15) = 0.75
    have h : (0.8 : ℚ) * 0.30 + (0.6 : ℚ) * 0.30 + (0.9 : ℚ) * 0.25 + (0.7 : ℚ) * 0.15 =
        ((750 : ℤ) : ℚ) / 1000 := by norm_num
    rw [h, round3_int_over_1000]
    norm_num
  · norm_num

/-- C4 (amended): for every quadruple of component results the overall
score is the fixed weighted sum reasoning_depth×0.30 +
argument_structure×0.30 + consistency×0.25 + logical_fallacies×0.15
rounded to 3 decimal places; in particular component scores 0.8, 0.6,
0.9, 0.7 yield overall score 0.75. -/
theorem C4_overall_score_weighted_sum :
    (∀ (rd : ReasoningDepthResult) (a : ArgumentStructureResult)
        (c : ConsistencyResult) (l : LogicalFallacyResult),
      ReasoningLogicEvaluator.calculate_overall_score rd a c l =
        round3 (rd.score * 0.30 + a.score * 0.30 + c.score * 0.25 + l.score * 0.15)) ∧
    ReasoningLogicEvaluator.calculate_overall_score
      (⟨0.8, true, true, 3, []⟩ : ReasoningDepthResult)
      (⟨0.6, true, 0.6, [], []⟩ : ArgumentStructureResult)
      (⟨0.9, [], []⟩ : ConsistencyResult)
      (⟨0.7, [], []⟩ : LogicalFallacyResult) = 0.75 := by
  refine ⟨fun _ _ _ _ => rfl, ?_⟩
  show round3 ((0.8 : ℚ) * 0.30 + (0.6 : ℚ) * 0.30 + (0.9 : ℚ) * 0.25 + (0.7 : ℚ) * 0.15) = 0.75
  have h : (0.8 : ℚ) * 0.30 + (0.6 : ℚ) * 0.30 + (0.9 : ℚ) * 0.25 + (0.7 : ℚ) * 0.15 =
      ((750 : ℤ) : ℚ) / 1000 := by norm_num
  rw [h, round3_int_over_1000]
  norm_num

/-- C8: the recommendations list is the concatenation of the four
per-dimension contributions; the fallacy contribution is one entry per
fallacy taken from the first two detected fallacies in order, hence
never exceeds 2 entries, even when more fallacies are present (a
concrete three-fallacy input contributes exactly 2). -/
theorem C8_fallacy_recommendations_capped_at_two
    (rd : ReasoningDepthResult) (a : ArgumentStructureResult)
    (c : ConsistencyResult) (l : LogicalFallacyResult) :
    ReasoningLogicEvaluator.generate_recommendations rd a c l =
      ReasoningLogicEvaluator.rdRecs rd ++ ReasoningLogicEvaluator.asRecs a ++
      ReasoningLogicEvaluator.csRecs c ++ ReasoningLogicEvaluator.lfRecs l ∧
    ReasoningLogicEvaluator.lfRecs l =
      (l.fallacies.take 2).map (fun f => "修正逻辑谬误：".data ++ f.description) ∧
    (ReasoningLogicEvaluator.lfRecs l).length ≤ 2 ∧
    (ReasoningLogicEvaluator.lfRecs
      (⟨0.2,
        [⟨"overgeneralization".data, "l1".data, "d1".data, 0.5⟩,
         ⟨"post_hoc".data, "l2".data, "d2".data, 0.6⟩,
         ⟨"strawman".data, "l3".data, "d3".data, 0.7⟩], []⟩ : LogicalFallacyResult)).length = 2 := by
  have htake : ReasoningLogicEvaluator.lfRecs l =
      (l.fallacies.take 2).map (fun f => "修正逻辑谬误：".data ++ f.description) := by
    unfold ReasoningLogicEvaluator.lfRecs
    split
    · rfl
    · rename_i hne
      have hnil : l.fallacies = [] := by
        rcases hf : l.fallacies with _ | ⟨x, xs⟩
        · rfl
        · rw [hf] at hne; simp at hne
      rw [hnil]
      rfl
  refine ⟨rfl, htake, ?_, by decide⟩
  rw [htake]
  simp only [List.length_map, List.length_take]
  omega

/-- C10: in every evaluation, each of the four dimensions contributes
entries to at most one of the strengths and weaknesses lists: the two
lists are concatenations of per-dimension contributions, and for every
dimension at least one of its two contributions is empty. -/
theorem C10_strengths_weaknesses_mutually_exclusive
    (rd : ReasoningDepthResult) (a : ArgumentStructureResult)
    (c : ConsistencyResult) (l : LogicalFallacyResult) :
    ReasoningLogicEvaluator.identify_strengths_weaknesses rd a c l =
      (ReasoningLogicEvaluator.rdStrengths rd ++ ReasoningLogicEvaluator.asStrengths a ++
         ReasoningLogicEvaluator.csStrengths c ++ ReasoningLogicEvaluator.lfStrengths l,
       ReasoningLogicEvaluator.rdWeaknesses rd ++ ReasoningLogicEvaluator.asWeaknesses a ++
         ReasoningLogicEvaluator.csWeaknesses c ++ ReasoningLogicEvaluator.lfWeaknesses l) ∧
    (ReasoningLogicEvaluator.rdStrengths rd = [] ∨ ReasoningLogicEvaluator.rdWeaknesses rd = []) ∧
    (ReasoningLogicEvaluator.asStrengths a = [] ∨ ReasoningLogicEvaluator.asWeaknesses a = []) ∧
    (ReasoningLogicEvaluator.csStrengths c = [] ∨ ReasoningLogicEvaluator.csWeaknesses c = []) ∧
    (ReasoningLogicEvaluator.lfStrengths l = [] ∨ ReasoningLogicEvaluator.lfWeaknesses l = []) := by
  refine ⟨rfl, ?_, ?_, ?_, ?_⟩
  · by_cases h : rd.score ≥ 0.7
    · right; unfold ReasoningLogicEvaluator.rdWeaknesses; rw [if_pos h]
    · left; unfold ReasoningLogicEvaluator.rdStrengths; rw [if_neg h]
  · by_cases h : a.score ≥ 0.7
    · right; unfold ReasoningLogicEvaluator.asWeaknesses; rw [if_pos h]
    · left; unfold ReasoningLogicEvaluator.asStrengths; rw [if_neg h]
  · by_cases h : c.score ≥ 0.8
    · right; unfold ReasoningLogicEvaluator.csWeaknesses; rw [if_pos h]
    · left; unfold ReasoningLogicEvaluator.csStrengths; rw [if_neg h]
  · by_cases h : l.score ≥ 0.8
    · right; unfold ReasoningLogicEvaluator.lfWeaknesses; rw [if_pos h]
    · left; unfold ReasoningLogicEvaluator.lfStrengths; rw [if_neg h]

theorem mem_ite_singleton {α : Type} {x l : α} {c : Prop} [Decidable c]
    (h : x ∈ if c then [l] else ([] : List α)) : x = l := by
  split at h
  · simpa using h
  · simp at h

theorem ne_of_head {a b : Char} {l m : List Char} (hab : a = b → False) :
    a :: l = b :: m → False := by
  intro h
  injection h with h1 _
  exact hab h1

theorem coh_wk_not_mem_rdW (rd : ReasoningDepthResult) :
    "段落衔接有待改进".data ∉ ReasoningLogicEvaluator.rdWeaknesses rd := by
  unfold ReasoningLogicEvaluator.rdWeaknesses
  split
  · simp
  · intro h
    rcases List.mem_append.mp h with h | h
    · rcases List.mem_append.mp h with h | h
      · exact absurd (mem_ite_singleton h) (by decide)
      · exact absurd (mem_ite_singleton h) (by decide)
    · exact absurd (mem_ite_singleton h) (by decide)

theorem coh_wk_not_mem_csW (c : ConsistencyResult) :
    "段落衔接有待改进".data ∉ ReasoningLogicEvaluator.csWeaknesses c := by
  unfold ReasoningLogicEvaluator.csWeaknesses
  split
  · simp
  · split
    · intro h
      rw [List.mem_singleton] at h
      exact ne_of_head (by decide) h
    · simp

theorem coh_wk_not_mem_lfW (l : LogicalFallacyResult) :
    "段落衔接有待改进".data ∉ ReasoningLogicEvaluator.lfWeaknesses l := by
  unfold ReasoningLogicEvaluator.lfWeaknesses
  split
  · simp
  · split
    · intro h
      rw [List.mem_singleton] at h
      exact ne_of_head (by decide) h
    · simp

theorem coh_wk_mem_asW_iff (a : ArgumentStructureResult) (h : a.score < 0.7) :
    "段落衔接有待改进".data ∈ ReasoningLogicEvaluator.asWeaknesses a ↔
      a.paragraph_coherence < 0.6 := by
  unfold ReasoningLogicEvaluator.asWeaknesses
  rw [if_neg (not_le.mpr h)]
  constructor
  · intro hm
    rcases List.mem_append.mp hm with hm | hm
    · exact absurd (mem_ite_singleton hm) (by decide)
    · by_contra hc
      rw [if_neg hc] at hm
      simp at hm
  · intro hc
    refine List.mem_append.mpr (Or.inr ?_)
    rw [if_pos hc]
    exact List.mem_singleton_self _

theorem coh_st_not_mem_rdS (rd : ReasoningDepthResult) :
    "段落衔接自然流畅".data ∉ ReasoningLogicEvaluator.rdStrengths rd := by
  unfold ReasoningLogicEvaluator.rdStrengths
  split
  · intro h
    rcases List.mem_append.mp h with h | h
    · rcases List.mem_append.mp h with h | h
      · exact absurd (mem_ite_singleton h) (by decide)
      · exact absurd (mem_ite_singleton h) (by decide)
    · exact ne_of_head (by decide) (mem_ite_singleton h)
  · simp

theorem coh_st_not_mem_csS (c : ConsistencyResult) :
    "段落衔接自然流畅".data ∉ ReasoningLogicEvaluator.csStrengths c := by
  unfold ReasoningLogicEvaluator.csStrengths
  split
  · intro h
    rw [List.mem_singleton] at h
    exact absurd h (by decide)
  · simp

theorem coh_st_not_mem_lfS (l : LogicalFallacyResult) :
    "段落衔接自然流畅".data ∉ ReasoningLogicEvaluator.lfStrengths l := by
  unfold ReasoningLogicEvaluator.lfStrengths
  split
  · intro h
    rw [List.mem_singleton] at h
    exact absurd h (by decide)
  · simp

theorem coh_st_mem_asS_imp (a : ArgumentStructureResult) :
    "段落衔接自然流畅".data ∈ ReasoningLogicEvaluator.asStrengths a →
      a.paragraph_coherence ≥ 0.7 := by
  unfold ReasoningLogicEvaluator.asStrengths
  split
  · intro hm
    rcases List.mem_append.mp hm with hm | hm
    · exact absurd (mem_ite_singleton hm) (by decide)
    · by_contra hc
      rw [if_neg hc] at hm
      simp at hm
  · intro hm
    simp at hm

theorem mem_weaknesses_decomp (rd : ReasoningDepthResult) (a : ArgumentStructureResult)
    (c : ConsistencyResult) (l : LogicalFallacyResult) (x : PyStr) :
    x ∈ (ReasoningLogicEvaluator.identify_strengths_weaknesses rd a c l).2 ↔
      x ∈ ReasoningLogicEvaluator.rdWeaknesses rd ∨
      x ∈ ReasoningLogicEvaluator.asWeaknesses a ∨
      x ∈ ReasoningLogicEvaluator.csWeaknesses c ∨
      x ∈ ReasoningLogicEvaluator.lfWeaknesses l := by
  simp [ReasoningLogicEvaluator.identify_strengths_weaknesses, List.mem_append, or_assoc]

theorem mem_strengths_decomp (rd : ReasoningDepthResult) (a : ArgumentStructureResult)
    (c : ConsistencyResult) (l : LogicalFallacyResult) (x : PyStr) :
    x ∈ (ReasoningLogicEvaluator.identify_strengths_weaknesses rd a c l).1 ↔
      x ∈ ReasoningLogicEvaluator.rdStrengths rd ∨
      x ∈ ReasoningLogicEvaluator.asStrengths a ∨
      x ∈ ReasoningLogicEvaluator.csStrengths c ∨
      x ∈ ReasoningLogicEvaluator.lfStrengths l := by
  simp [ReasoningLogicEvaluator.identify_strengths_weaknesses, List.mem_append, or_assoc]

/-- A reasoning-depth result used in concrete threshold instances. -/
def rdHigh : ReasoningDepthResult := ⟨0.9, true, true, 3, []⟩

/-- A consistency result used in concrete threshold instances. -/
def csHigh : ConsistencyResult := ⟨0.9, ["x".data], []⟩

/-- A fallacy result used in concrete threshold instances. -/
def lfHigh : LogicalFallacyResult := ⟨0.9, [], []⟩

/-- Argument structure with score 0.65 and coherence 0.65. -/
def asCoh65 : ArgumentStructureResult := ⟨0.65, true, 0.65, [], []⟩

/-- Argument structure with score 0.65 and coherence 0.55. -/
def asCoh55 : ArgumentStructureResult := ⟨0.65, true, 0.55, [], []⟩

/-- C7: in the orchestrator's derivation, for every argument-structure
result with score < 0.7 the coherence weakness 「段落衔接有待改进」 is
emitted iff paragraph_coherence < 0.6; concretely coherence 0.65 (score
0.65) yields no such weakness while coherence 0.55 does; and the
coherence strength 「段落衔接自然流畅」 can only be emitted when
paragraph_coherence ≥ 0.7. -/
theorem C7_coherence_threshold_asymmetry :
    (∀ (rd : ReasoningDepthResult) (a : ArgumentStructureResult)
        (c : ConsistencyResult) (l : LogicalFallacyResult), a.score < 0.7 →
      ("段落衔接有待改进".data ∈
          (ReasoningLogicEvaluator.identify_strengths_weaknesses rd a c l).2 ↔
        a.paragraph_coherence < 0.6)) ∧
    "段落衔接有待改进".data ∉
      (ReasoningLogicEvaluator.identify_strengths_weaknesses rdHigh asCoh65 csHigh lfHigh).2 ∧
    "段落衔接有待改进".data ∈
      (ReasoningLogicEvaluator.identify_strengths_weaknesses rdHigh asCoh55 csHigh lfHigh).2 ∧
    (∀ (rd : ReasoningDepthResult) (a : ArgumentStructureResult)
        (c : ConsistencyResult) (l : LogicalFallacyResult),
      "段落衔接自然流畅".data ∈
          (ReasoningLogicEvaluator.identify_strengths_weaknesses rd a c l).1 →
        a.paragraph_coherence ≥ 0.7) := by
  have hA : ∀ (rd : ReasoningDepthResult) (a : ArgumentStructureResult)
      (c : ConsistencyResult) (l : LogicalFallacyResult), a.score < 0.7 →
      ("段落衔接有待改进".data ∈
          (ReasoningLogicEvaluator.identify_strengths_weaknesses rd a c l).2 ↔
        a.paragraph_coherence < 0.6) := by
    intro rd a c l h
    rw [mem_weaknesses_decomp]
    constructor
    · rintro (hm | hm | hm | hm)
      · exact absurd hm (coh_wk_not_mem_rdW rd)
      · exact (coh_wk_mem_asW_iff a h).mp hm
      · exact absurd hm (coh_wk_not_mem_csW c)
      · exact absurd hm (coh_wk_not_mem_lfW l)
    · intro hc
      exact Or.inr (Or.inl ((coh_wk_mem_asW_iff a h).mpr hc))
  refine ⟨hA, ?_, ?_, ?_⟩
  · intro hm
    have h := (hA rdHigh asCoh65 csHigh lfHigh (by norm_num [asCoh65])).mp hm
    rw [show asCoh65.paragraph_coherence = 0.65 from rfl] at h
    norm_num at h
  · refine (hA rdHigh asCoh55 csHigh lfHigh (by norm_num [asCoh55])).mpr ?_
    rw [show asCoh55.paragraph_coherence = 0.55 from rfl]
    norm_num
  · intro rd a c l hm
    rw [mem_strengths_decomp] at hm
    rcases hm with hm | hm | hm | hm
    · exact absurd hm (coh_st_not_mem_rdS rd)
    · exact coh_st_mem_asS_imp a hm
    · exact absurd hm (coh_st_not_mem_csS c)
    · exact absurd hm (coh_st_not_mem_lfS l)

/-- Witness for C7 at the concrete low-coherence instance. -/
theorem C7_witness :
    asCoh55.score < 0.7 ∧
    ("段落衔接有待改进".data ∈
        (ReasoningLogicEvaluator.identify_strengths_weaknesses rdHigh asCoh55 csHigh lfHigh).2 ↔
      asCoh55.paragraph_coherence < 0.6) :=
  ⟨by norm_num [asCoh55],
   C7_coherence_threshold_asymmetry.1 rdHigh asCoh55 csHigh lfHigh (by norm_num [asCoh55])⟩

/-- C9: non-object entries inside the list-typed fields are silently
dropped rather than fatal: both list parsers are invariant under removing
the non-dict entries, and concrete mixed lists parse successfully to just
their object entries. -/
theorem C9_non_object_entries_dropped :
    (∀ xs : List Json, ArgumentStructureAgent.parse_components xs =
      ArgumentStructureAgent.parse_components (xs.filter isDict)) ∧
    (∀ xs : List Json, LogicalFallacyAgent.parseFallacies xs =
      LogicalFallacyAgent.parseFallacies (xs.filter isDict)) ∧
    ArgumentStructureAgent.parse_components
        [Json.obj [("type".data, Json.str ("claim".data))], Json.num 5, Json.str ("x".data)] =
      [⟨Json.str ("claim".data), Json.str [], Json.str []⟩] ∧
    LogicalFallacyAgent.parseFallacies
        [Json.str ("x".data), Json.obj [("severity".data, Json.num 0.9)], Json.null] =
      .ok [⟨Json.str ("overgeneralization".data), Json.str [], Json.str [], clamp01 0.9⟩] := by
  refine ⟨?_, ?_, rfl, rfl⟩
  · intro xs
    induction xs with
    | nil => rfl
    | cons x rest ih =>
      cases x with
      | obj fs =>
        calc ArgumentStructureAgent.parse_components (Json.obj fs :: rest)
            = ⟨(jsonGet fs ("type".data)).getD (.str ("unknown".data)),
               (jsonGet fs ("content".data)).getD (.str []),
               (jsonGet fs ("location".data)).getD (.str [])⟩ ::
              ArgumentStructureAgent.parse_components rest := rfl
          _ = _ := by rw [ih]; rfl
      | null => exact ih
      | bool b => exact ih
      | num q => exact ih
      | str s => exact ih
      | arr ys => exact ih
  · intro xs
    induction xs with
    | nil => rfl
    | cons x rest ih =>
      cases x with
      | obj fs =>
        have hfil : (Json.obj fs :: rest).filter isDict =
            Json.obj fs :: rest.filter isDict := rfl
        rw [hfil]
        cases hsev : pyFloat ((jsonGet fs ("severity".data)).getD (.num 0.5)) with
        | error e =>
          have h1 : LogicalFallacyAgent.parseFallacies (Json.obj fs :: rest) = .error e := by
            unfold LogicalFallacyAgent.parseFallacies
            dsimp only
            rw [hsev]
          have h2 : LogicalFallacyAgent.parseFallacies (Json.obj fs :: rest.filter isDict) =
              .error e := by
            unfold LogicalFallacyAgent.parseFallacies
            dsimp only
            rw [hsev]
          rw [h1, h2]
        | ok sev =>
          cases htail : LogicalFallacyAgent.parseFallacies rest with
          | error e =>
            have htail' : LogicalFallacyAgent.parseFallacies (rest.filter isDict) = .error e :=
              ih.symm.trans htail
            have h1 : LogicalFallacyAgent.parseFallacies (Json.obj fs :: rest) = .error e := by
              unfold LogicalFallacyAgent.parseFallacies
              dsimp only
              rw [hsev, htail]
            have h2 : LogicalFallacyAgent.parseFallacies (Json.obj fs :: rest.filter isDict) =
                .error e := by
              unfold LogicalFallacyAgent.parseFallacies
              dsimp only
              rw [hsev, htail']
            rw [h1, h2]
          | ok tail =>
            have htail' : LogicalFallacyAgent.parseFallacies (rest.filter isDict) = .ok tail :=
              ih.symm.trans htail
            have h1 : LogicalFallacyAgent.parseFallacies (Json.obj fs :: rest) =
                .ok (⟨(jsonGet fs ("type".data)).getD (.str ("overgeneralization".data)),
                      (jsonGet fs ("location".data)).getD (.str []),
                      (jsonGet fs ("description".data)).getD (.str []),
                      clamp01 sev⟩ :: tail) := by
              unfold LogicalFallacyAgent.parseFallacies
              dsimp only
              rw [hsev, htail]
            have h2 : LogicalFallacyAgent.parseFallacies (Json.obj fs :: rest.filter isDict) =
                .ok (⟨(jsonGet fs ("type".data)).getD (.str ("overgeneralization".data)),
                      (jsonGet fs ("location".data)).getD (.str []),
                      (jsonGet fs ("description".data)).getD (.str []),
                      clamp01 sev⟩ :: tail) := by
              unfold LogicalFallacyAgent.parseFallacies
              dsimp only
              rw [hsev, htail']
            rw [h1, h2]
      | null => exact ih
      | bool b => exact ih
      | num q => exact ih
      | str s => exact ih
      | arr ys => exact ih

/-- The fallacy loop succeeds whenever every object entry's severity
coerces. -/
theorem parseFallacies_ok_of_sevOk (items : List Json) (h : items.all sevEntryOk = true) :
    ∃ l, LogicalFallacyAgent.parseFallacies items = .ok l := by
  induction items with
  | nil => exact ⟨[], rfl⟩
  | cons j rest ih =>
    rw [List.all_cons, Bool.and_eq_true] at h
    obtain ⟨l, hl⟩ := ih h.2
    cases j with
    | obj fs =>
      have h1 : isOkB (pyFloat ((jsonGet fs ("severity".data)).getD (.num 0.5))) = true := by
        have := h.1
        dsimp only [sevEntryOk] at this
        exact this
      cases hsev : pyFloat ((jsonGet fs ("severity".data)).getD (.num 0.5)) with
      | error e => rw [hsev] at h1; simp [isOkB] at h1
      | ok sev =>
        refine ⟨⟨(jsonGet fs ("type".data)).getD (.str ("overgeneralization".data)),
                 (jsonGet fs ("location".data)).getD (.str []),
                 (jsonGet fs ("description".data)).getD (.str []),
                 clamp01 sev⟩ :: l, ?_⟩
        unfold LogicalFallacyAgent.parseFallacies
        dsimp only
        rw [hsev, hl]
    | null => exact ⟨l, hl⟩
    | bool b => exact ⟨l, hl⟩
    | num q => exact ⟨l, hl⟩
    | str s => exact ⟨l, hl⟩
    | arr ys => exact ⟨l, hl⟩

/-- The response object with fallacy severities 0.2 and 0.8 and no
top-level score. -/
def fsTwoSeverities : List (PyStr × Json) :=
  [("fallacies".data,
    Json.arr [Json.obj [("severity".data, Json.num 0.2)],
              Json.obj [("severity".data, Json.num 0.8)]])]

/-- The fallacy dict parsed from the severity-0.2 entry. -/
def fd02 : FallacyDict :=
  ⟨Json.str ("overgeneralization".data), Json.str [], Json.str [], clamp01 0.2⟩

/-- The fallacy dict parsed from the severity-0.8 entry. -/
def fd08 : FallacyDict :=
  ⟨Json.str ("overgeneralization".data), Json.str [], Json.str [], clamp01 0.8⟩

/-- C5 (amended): in the LogicalFallacy agent's parser, for every valid
JSON response object with no top-level `score` key whose `fallacies`
entries all have coercible severities, the returned score is 1.0 minus
the average severity of the parsed fallacies clamped to [0,1] (1.0 when
no fallacies were parsed); in particular severities 0.2 and 0.8 yield
score 0.5. -/
theorem C5_derived_score_without_top_level_score (fs : List (PyStr × Json))
    (hns : (jsonGet fs ("score".data)).isNone = true)
    (hok : fallaciesFieldOk fs = true) :
    (∃ d, LogicalFallacyAgent.parseJson (Json.obj fs) = .ok d ∧
      d.score = (if d.fallacies.isEmpty then 1
        else clamp01 (1 - (d.fallacies.map (fun f => f.severity)).sum / (d.fallacies.length : ℚ)))) ∧
    lfRespScore (LogicalFallacyAgent.parseJson (Json.obj fsTwoSeverities)) = some 0.5 := by
  constructor
  · have hraw : getRawD (Json.obj fs) ("fallacies".data) (.arr []) =
        .ok ((jsonGet fs ("fallacies".data)).getD (.arr [])) := by
      cases h : jsonGet fs ("fallacies".data) <;> simp [getRawD, pyGet, h]
    obtain ⟨items, hiter, hall⟩ : ∃ items,
        pyIter ((jsonGet fs ("fallacies".data)).getD (.arr [])) = .ok items ∧
          items.all sevEntryOk = true := by
      unfold fallaciesFieldOk at hok
      cases hj : jsonGet fs ("fallacies".data) with
      | none => exact ⟨[], rfl, rfl⟩
      | some v =>
        rw [hj] at hok
        dsimp only at hok
        cases hit : pyIter v with
        | error e => rw [hit] at hok; simp at hok
        | ok its =>
          rw [hit] at hok
          dsimp only at hok
          exact ⟨its, hit, hok⟩
    obtain ⟨fallacies, hfals⟩ := parseFallacies_ok_of_sevOk items hall
    have hscore : pyGet (Json.obj fs) ("score".data) = .ok none := by
      simp [pyGet, Option.isNone_iff_eq_none.mp hns]
    obtain ⟨ex, hex⟩ : ∃ ex, getStrD (Json.obj fs) ("fallacy_explanation".data) [] = .ok ex := by
      unfold getStrD pyGet
      dsimp only
      cases jsonGet fs ("fallacy_explanation".data) with
      | none => exact ⟨[], rfl⟩
      | some x => exact ⟨pyToStr x, rfl⟩
    refine ⟨{ score := clamp01 (if fallacies.isEmpty then (1 : ℚ)
                else max 0 (1 - (fallacies.map (fun f => f.severity)).sum / (fallacies.length : ℚ)))
              fallacies := fallacies
              fallacy_explanation := ex }, ?_, ?_⟩
    · unfold LogicalFallacyAgent.parseJson
      rw [hraw]
      dsimp only
      rw [hiter]
      dsimp only
      rw [hfals]
      dsimp only
      rw [hscore]
      dsimp only
      rw [hex]
    · by_cases hemp : fallacies.isEmpty = true
      · dsimp only
        rw [if_pos hemp, if_pos hemp]
        rw [clamp01_eq_self (by norm_num) (by norm_num)]
      · dsimp only
        rw [if_neg hemp, if_neg hemp, clamp01_max_zero]
  · have hparse : LogicalFallacyAgent.parseJson (Json.obj fsTwoSeverities) =
        .ok { score := clamp01 (if ([fd02, fd08] : List FallacyDict).isEmpty then (1 : ℚ)
                else max 0 (1 - (([fd02, fd08] : List FallacyDict).map (fun f => f.severity)).sum /
                  (([fd02, fd08] : List FallacyDict).length : ℚ)))
              fallacies := [fd02, fd08]
              fallacy_explanation := [] } := rfl
    rw [hparse]
    unfold lfRespScore
    have h02 : clamp01 (0.2 : ℚ) = 0.2 := clamp01_eq_self (by norm_num) (by norm_num)
    have h08 : clamp01 (0.8 : ℚ) = 0.8 := clamp01_eq_self (by norm_num) (by norm_num)
    have h05 : clamp01 (0.5 : ℚ) = 0.5 := clamp01_eq_self (by norm_num) (by norm_num)
    rw [if_neg (by decide)]
    have hlen : ((([fd02, fd08] : List FallacyDict).length : ℕ) : ℚ) = 2 := by simp
    have hsum : ((([fd02, fd08] : List FallacyDict).map (fun f => f.severity)).sum : ℚ) =
        clamp01 0.2 + clamp01 0.8 := by simp [fd02, fd08]
    rw [hsum, hlen, h02, h08]
    have hmax : (0 : ℚ) ⊔ (1 - (0.2 + 0.8) / 2) = 0.5 := by
      rw [max_eq_right (by norm_num)]
      norm_num
    rw [hmax, h05]

/-- The response object whose single fallacy has a non-coercible
severity. -/
def fsBadSeverity : List (PyStr × Json) :=
  [("fallacies".data, Json.arr [Json.obj [("severity".data, Json.str ("abc".data))]])]

/-- A decoder behaviour answering the bad-severity object. -/
def loadsBadSeverity : Loads := fun _ => .ok (Json.obj fsBadSeverity)

/-- C5 counterexample: a valid JSON response object with no top-level
`score` key on which the parser does not return the claimed derived
score: the severity fails float coercion, the coercion step aborts, and
the parser's fallback result carries score 0.7 — not 1.0 (the claimed
value when no fallacies are parsed) nor 1 − average severity. -/
theorem C5_counterexample :
    (jsonGet fsBadSeverity ("score".data)).isNone = true ∧
    isOkB (LogicalFallacyAgent.parseJson (Json.obj fsBadSeverity)) = false ∧
    lfRespScore (LogicalFallacyAgent.parse_response loadsBadSeverity ("resp".data)) = some 0.7 ∧
    (0.7 : ℚ) ≠ 1 :=
  ⟨rfl, rfl, rfl, by norm_num⟩

/-- Witness for C5 at the two-severity response object. -/
theorem C5_witness :
    (jsonGet fsTwoSeverities ("score".data)).isNone = true ∧
    fallaciesFieldOk fsTwoSeverities = true ∧
    ((∃ d, LogicalFallacyAgent.parseJson (Json.obj fsTwoSeverities) = .ok d ∧
      d.score = (if d.fallacies.isEmpty then 1
        else clamp01 (1 - (d.fallacies.map (fun f => f.severity)).sum / (d.fallacies.length : ℚ)))) ∧
     lfRespScore (LogicalFallacyAgent.parseJson (Json.obj fsTwoSeverities)) = some 0.5) :=
  ⟨rfl, rfl, C5_derived_score_without_top_level_score fsTwoSeverities rfl rfl⟩

/-! ### Fence-stripping lemmas (C6) -/

theorem dataJ8 : ("```json\n".data : PyStr) = ['\x60', '\x60', '\x60', 'j', 's', 'o', 'n', '\n'] := rfl

theorem dataJ7 : ("``json\n".data : PyStr) = ['\x60', '\x60', 'j', 's', 'o', 'n', '\n'] := rfl

theorem dataF7 : ("```json".data : PyStr) = ['\x60', '\x60', '\x60', 'j', 's', 'o', 'n'] := rfl

theorem dataF3 : ("```".data : PyStr) = ['\x60', '\x60', '\x60'] := rfl

theorem dataT4 : ("\n```".data : PyStr) = ['\n', '\x60', '\x60', '\x60'] := rfl

theorem dataT3 : ("\n``".data : PyStr) = ['\n', '\x60', '\x60'] := rfl

theorem dataB4 : ("```\n".data : PyStr) = ['\x60', '\x60', '\x60', '\n'] := rfl

theorem dataB3 : ("``\n".data : PyStr) = ['\x60', '\x60', '\n'] := rfl

theorem dropWhile_append_of_nil {α : Type} (p : α → Bool) (l m : List α)
    (h : l.dropWhile p = []) : (l ++ m).dropWhile p = m.dropWhile p := by
  induction l with
  | nil => rfl
  | cons a rest ih =>
    by_cases hp : p a = true
    · rw [List.cons_append, List.dropWhile_cons_of_pos hp]
      apply ih
      rwa [List.dropWhile_cons_of_pos hp] at h
    · rw [List.dropWhile_cons_of_neg (by simpa using hp)] at h
      exact absurd h (by simp)

theorem dropWhile_append_of_ne {α : Type} (p : α → Bool) (l m : List α)
    (h : l.dropWhile p ≠ []) : (l ++ m).dropWhile p = l.dropWhile p ++ m := by
  induction l with
  | nil => exact absurd rfl h
  | cons a rest ih =>
    by_cases hp : p a = true
    · rw [List.cons_append, List.dropWhile_cons_of_pos hp, List.dropWhile_cons_of_pos hp]
      apply ih
      rwa [List.dropWhile_cons_of_pos hp] at h
    · rw [List.cons_append, List.dropWhile_cons_of_neg (by simpa using hp),
        List.dropWhile_cons_of_neg (by simpa using hp)]
      rfl

theorem pyStrip_eq_rdrop (l : PyStr) :
    pyStrip l = (l.dropWhile wsChar).rdropWhile wsChar := rfl

theorem pyStrip_cons_ws {c : Char} (h : wsChar c = true) (l : PyStr) :
    pyStrip (c :: l) = pyStrip l := by
  rw [pyStrip_eq_rdrop, pyStrip_eq_rdrop, List.dropWhile_cons_of_pos h]

theorem pyStrip_concat_ws {c : Char} (h : wsChar c = true) (l : PyStr) :
    pyStrip (l ++ [c]) = pyStrip l := by
  rw [pyStrip_eq_rdrop, pyStrip_eq_rdrop]
  by_cases hd : List.dropWhile wsChar l = []
  · rw [dropWhile_append_of_nil wsChar l [c] hd, hd, List.dropWhile_cons_of_pos h]
    rfl
  · rw [dropWhile_append_of_ne wsChar l [c] hd, List.rdropWhile_concat_pos wsChar _ c h]

theorem pyStrip_nonws_ends {a b : Char} (ha : wsChar a = false) (hb : wsChar b = false)
    (l : PyStr) : pyStrip (a :: (l ++ [b])) = a :: (l ++ [b]) := by
  rw [pyStrip_eq_rdrop, List.dropWhile_cons_of_neg (by simp [ha])]
  rw [show a :: (l ++ [b]) = (a :: l) ++ [b] from rfl]
  rw [List.rdropWhile_concat_neg wsChar (a :: l) b (by simp [hb])]

theorem pyStrip_idem (l : PyStr) : pyStrip (pyStrip l) = pyStrip l := by
  rw [pyStrip_eq_rdrop l, pyStrip_eq_rdrop]
  have key : List.dropWhile wsChar ((List.dropWhile wsChar l).rdropWhile wsChar) =
      (List.dropWhile wsChar l).rdropWhile wsChar := by
    rcases hp : (List.dropWhile wsChar l).rdropWhile wsChar with _ | ⟨c, rest⟩
    · rfl
    · have hpre : (List.dropWhile wsChar l).rdropWhile wsChar <+: List.dropWhile wsChar l :=
        List.rdropWhile_prefix _ _
      rw [hp] at hpre
      obtain ⟨t, ht⟩ := hpre
      have h3 := List.head?_dropWhile_not wsChar l
      rw [← ht, show (c :: rest) ++ t = c :: (rest ++ t) from rfl] at h3
      dsimp only [List.head?] at h3
      exact List.dropWhile_cons_of_neg (by simp [h3])
  rw [key, List.rdropWhile_idempotent]

theorem startsW_fenceJson_imp (s : PyStr)
    (h : startsW s ['\x60', '\x60', '\x60', 'j', 's', 'o', 'n'] = true) :
    startsW s ['\x60', '\x60', '\x60'] = true := by
  rcases s with _ | ⟨a, _ | ⟨b, _ | ⟨c, rest⟩⟩⟩
  · simp [startsW] at h
  · simp [startsW] at h
  · simp [startsW] at h
  · simp only [startsW, Bool.and_eq_true, beq_iff_eq] at h
    simp [startsW, h.1, h.2.1, h.2.2.1]

theorem stripFences_wrapJson (p : PyStr) :
    stripFences (wrapJsonFence p) = pyStrip p := by
  have h0 : pyStrip (['\x60', '\x60', '\x60', 'j', 's', 'o', 'n', '\n'] ++ p ++
        ['\n', '\x60', '\x60', '\x60']) =
      ['\x60', '\x60', '\x60', 'j', 's', 'o', 'n', '\n'] ++ p ++
        ['\n', '\x60', '\x60', '\x60'] := by
    have e1 : ['\x60', '\x60', '\x60', 'j', 's', 'o', 'n', '\n'] ++ p ++
          ['\n', '\x60', '\x60', '\x60'] =
        '\x60' :: ((['\x60', '\x60', 'j', 's', 'o', 'n', '\n'] ++ p ++
          ['\n', '\x60', '\x60']) ++ ['\x60']) := by
      simp
    rw [e1]
    exact pyStrip_nonws_ends (by decide) (by decide) _
  have hsw1 : startsW (['\x60', '\x60', '\x60', 'j', 's', 'o', 'n', '\n'] ++ p ++
      ['\n', '\x60', '\x60', '\x60']) ['\x60', '\x60', '\x60', 'j', 's', 'o', 'n'] = true := by
    simp [startsW]
  have hdrop : (['\x60', '\x60', '\x60', 'j', 's', 'o', 'n', '\n'] ++ p ++
      ['\n', '\x60', '\x60', '\x60']).drop 7 = '\n' :: (p ++ ['\n', '\x60', '\x60', '\x60']) := by
    simp
  have hsw2 : startsW ('\n' :: (p ++ ['\n', '\x60', '\x60', '\x60']))
      ['\x60', '\x60', '\x60'] = false := by
    simp [startsW, show ('\n' == '\x60') = false from rfl]
  have hend : endsW ('\n' :: (p ++ ['\n', '\x60', '\x60', '\x60']))
      ['\x60', '\x60', '\x60'] = true := by
    unfold endsW
    simp [startsW, List.reverse_append]
  have htake : ('\n' :: (p ++ ['\n', '\x60', '\x60', '\x60'])).take
        (('\n' :: (p ++ ['\n', '\x60', '\x60', '\x60'])).length - 3) =
      '\n' :: (p ++ ['\n']) := by
    have e : '\n' :: (p ++ ['\n', '\x60', '\x60', '\x60']) =
        ('\n' :: (p ++ ['\n'])) ++ ['\x60', '\x60', '\x60'] := by
      simp
    rw [e]
    exact List.take_left' (by simp)
  have hfin : pyStrip ('\n' :: (p ++ ['\n'])) = pyStrip p := by
    rw [pyStrip_cons_ws (by decide), pyStrip_concat_ws (by decide)]
  simp only [stripFences, wrapJsonFence]
  simp only [h0, hsw1, hdrop, hsw2, hend, htake, hfin, eq_self_iff_true,
    Bool.false_eq_true, if_true, if_false]

theorem stripFences_wrapBare (p : PyStr) :
    stripFences (wrapBareFence p) = pyStrip p := by
  have h0 : pyStrip (['\x60', '\x60', '\x60', '\n'] ++ p ++ ['\n', '\x60', '\x60', '\x60']) =
      ['\x60', '\x60', '\x60', '\n'] ++ p ++ ['\n', '\x60', '\x60', '\x60'] := by
    have e1 : ['\x60', '\x60', '\x60', '\n'] ++ p ++ ['\n', '\x60', '\x60', '\x60'] =
        '\x60' :: ((['\x60', '\x60', '\n'] ++ p ++ ['\n', '\x60', '\x60']) ++ ['\x60']) := by
      simp
    rw [e1]
    exact pyStrip_nonws_ends (by decide) (by decide) _
  have hsw1 : startsW (['\x60', '\x60', '\x60', '\n'] ++ p ++ ['\n', '\x60', '\x60', '\x60'])
      ['\x60', '\x60', '\x60', 'j', 's', 'o', 'n'] = false := by
    simp [startsW, show ('\n' == 'j') = false from rfl]
  have hsw2 : startsW (['\x60', '\x60', '\x60', '\n'] ++ p ++ ['\n', '\x60', '\x60', '\x60'])
      ['\x60', '\x60', '\x60'] = true := by
    simp [startsW]
  have hdrop : (['\x60', '\x60', '\x60', '\n'] ++ p ++
      ['\n', '\x60', '\x60', '\x60']).drop 3 = '\n' :: (p ++ ['\n', '\x60', '\x60', '\x60']) := by
    simp
  have hsw3 : startsW ('\n' :: (p ++ ['\n', '\x60', '\x60', '\x60']))
      ['\x60', '\x60', '\x60'] = false := by
    simp [startsW, show ('\n' == '\x60') = false from rfl]
  have hend : endsW ('\n' :: (p ++ ['\n', '\x60', '\x60', '\x60']))
      ['\x60', '\x60', '\x60'] = true := by
    unfold endsW
    simp [startsW, List.reverse_append]
  have htake : ('\n' :: (p ++ ['\n', '\x60', '\x60', '\x60'])).take
        (('\n' :: (p ++ ['\n', '\x60', '\x60', '\x60'])).length - 3) =
      '\n' :: (p ++ ['\n']) := by
    have e : '\n' :: (p ++ ['\n', '\x60', '\x60', '\x60']) =
        ('\n' :: (p ++ ['\n'])) ++ ['\x60', '\x60', '\x60'] := by
      simp
    rw [e]
    exact List.take_left' (by simp)
  have hfin : pyStrip ('\n' :: (p ++ ['\n'])) = pyStrip p := by
    rw [pyStrip_cons_ws (by decide), pyStrip_concat_ws (by decide)]
  simp only [stripFences, wrapBareFence]
  simp only [h0, hsw1, hsw2, hdrop, hsw3, hend, htake, hfin, eq_self_iff_true,
    Bool.false_eq_true, if_true, if_false]

theorem stripFences_plain (p : PyStr)
    (h1 : startsW (pyStrip p) ("```".data) = false)
    (h2 : endsW (pyStrip p) ("```".data) = false) :
    stripFences p = pyStrip p := by
  rw [dataF3] at h1
  rw [dataF3] at h2
  have h1j : startsW (pyStrip p) ['\x60', '\x60', '\x60', 'j', 's', 'o', 'n'] = false := by
    cases hs : startsW (pyStrip p) ['\x60', '\x60', '\x60', 'j', 's', 'o', 'n']
    · rfl
    · exact absurd (startsW_fenceJson_imp _ hs) (by simp [h1])
  simp only [stripFences]
  simp only [h1j, h1, h2, Bool.false_eq_true, if_false, pyStrip_idem]

/-- C6: a JSON payload parses to the same structured value whether it is
presented unwrapped, wrapped in a "```json … ```" fence, or wrapped in a
bare "``` … ```" fence: the text handed to the decoder is identical, so
every agent's parser gives identical results for any decoder behaviour.
(The payload hypotheses hold for any JSON text: valid JSON can neither
start nor end with backticks.) -/
theorem C6_fence_wrapping_invariant (loads : Loads) (p : PyStr)
    (h1 : startsW (pyStrip p) ("```".data) = false)
    (h2 : endsW (pyStrip p) ("```".data) = false) :
    stripFences (wrapJsonFence p) = stripFences p ∧
    stripFences (wrapBareFence p) = stripFences p ∧
    ReasoningDepthAgent.parse_response loads (wrapJsonFence p) =
      ReasoningDepthAgent.parse_response loads p ∧
    ReasoningDepthAgent.parse_response loads (wrapBareFence p) =
      ReasoningDepthAgent.parse_response loads p ∧
    ArgumentStructureAgent.parse_response loads (wrapJsonFence p) =
      ArgumentStructureAgent.parse_response loads p ∧
    ArgumentStructureAgent.parse_response loads (wrapBareFence p) =
      ArgumentStructureAgent.parse_response loads p ∧
    ConsistencyAgent.parse_response loads (wrapJsonFence p) =
      ConsistencyAgent.parse_response loads p ∧
    ConsistencyAgent.parse_response loads (wrapBareFence p) =
      ConsistencyAgent.parse_response loads p ∧
    LogicalFallacyAgent.parse_response loads (wrapJsonFence p) =
      LogicalFallacyAgent.parse_response loads p ∧
    LogicalFallacyAgent.parse_response loads (wrapBareFence p) =
      LogicalFallacyAgent.parse_response loads p := by
  have hp := stripFences_plain p h1 h2
  have hj : stripFences (wrapJsonFence p) = stripFences p :=
    (stripFences_wrapJson p).trans hp.symm
  have hb : stripFences (wrapBareFence p) = stripFences p :=
    (stripFences_wrapBare p).trans hp.symm
  refine ⟨hj, hb, ?_, ?_, ?_, ?_, ?_, ?_, ?_, ?_⟩
  · unfold ReasoningDepthAgent.parse_response; rw [hj]
  · unfold ReasoningDepthAgent.parse_response; rw [hb]
  · unfold ArgumentStructureAgent.parse_response; rw [hj]
  · unfold ArgumentStructureAgent.parse_response; rw [hb]
  · unfold ConsistencyAgent.parse_response; rw [hj]
  · unfold ConsistencyAgent.parse_response; rw [hb]
  · unfold LogicalFallacyAgent.parse_response; rw [hj]
  · unfold LogicalFallacyAgent.parse_response; rw [hb]

/-- Witness for C6 at a concrete JSON payload and decoder behaviour. -/
theorem C6_witness :
    startsW (pyStrip ("[1]".data)) ("```".data) = false ∧
    endsW (pyStrip ("[1]".data)) ("```".data) = false ∧
    (stripFences (wrapJsonFence ("[1]".data)) = stripFences ("[1]".data) ∧
    stripFences (wrapBareFence ("[1]".data)) = stripFences ("[1]".data) ∧
    ReasoningDepthAgent.parse_response loadsRejecting (wrapJsonFence ("[1]".data)) =
      ReasoningDepthAgent.parse_response loadsRejecting ("[1]".data) ∧
    ReasoningDepthAgent.parse_response loadsRejecting (wrapBareFence ("[1]".data)) =
      ReasoningDepthAgent.parse_response loadsRejecting ("[1]".data) ∧
    ArgumentStructureAgent.parse_response loadsRejecting (wrapJsonFence ("[1]".data)) =
      ArgumentStructureAgent.parse_response loadsRejecting ("[1]".data) ∧
    ArgumentStructureAgent.parse_response loadsRejecting (wrapBareFence ("[1]".data)) =
      ArgumentStructureAgent.parse_response loadsRejecting ("[1]".data) ∧
    ConsistencyAgent.parse_response loadsRejecting (wrapJsonFence ("[1]".data)) =
      ConsistencyAgent.parse_response loadsRejecting ("[1]".data) ∧
    ConsistencyAgent.parse_response loadsRejecting (wrapBareFence ("[1]".data)) =
      ConsistencyAgent.parse_response loadsRejecting ("[1]".data) ∧
    LogicalFallacyAgent.parse_response loadsRejecting (wrapJsonFence ("[1]".data)) =
      LogicalFallacyAgent.parse_response loadsRejecting ("[1]".data) ∧
    LogicalFallacyAgent.parse_response loadsRejecting (wrapBareFence ("[1]".data)) =
      LogicalFallacyAgent.parse_response loadsRejecting ("[1]".data)) :=
  ⟨by decide, by decide,
   C6_fence_wrapping_invariant loadsRejecting ("[1]".data) (by decide) (by decide)⟩

/-! ### Validation lemmas (C1) -/

theorem validateFloat01_eq {q : ℚ} (h0 : 0 ≤ q) (h1 : q ≤ 1) : validateFloat01 q = .ok q := by
  unfold validateFloat01
  rw [if_pos ⟨h0, h1⟩]

theorem validateRD_eq (d : RDDict) (h0 : 0 ≤ d.score) (h1 : d.score ≤ 1) :
    validateRD d = .ok ⟨d.score, d.has_causal_analysis, d.has_comparative_analysis,
      d.analysis_levels, d.depth_explanation⟩ := by
  unfold validateRD
  rw [validateFloat01_eq h0 h1]

theorem validateCS_eq (d : CSDict) (h0 : 0 ≤ d.score) (h1 : d.score ≤ 1) :
    validateCS d = .ok ⟨d.score, d.contradictions, d.consistency_explanation⟩ := by
  unfold validateCS
  rw [validateFloat01_eq h0 h1]

theorem validateAS_eq (d : ASDict) (comps : List ArgumentComponent)
    (hs0 : 0 ≤ d.score) (hs1 : d.score ≤ 1)
    (hp0 : 0 ≤ d.paragraph_coherence) (hp1 : d.paragraph_coherence ≤ 1) :
    validateAS d comps = .ok ⟨d.score, d.has_clear_structure, d.paragraph_coherence,
      comps, d.structure_explanation⟩ := by
  unfold validateAS
  rw [validateFloat01_eq hs0 hs1, validateFloat01_eq hp0 hp1]

theorem validateLF_eq (d : LFDict) (fals : List LogicalFallacy)
    (h0 : 0 ≤ d.score) (h1 : d.score ≤ 1) :
    validateLF d fals = .ok ⟨d.score, fals, d.fallacy_explanation⟩ := by
  unfold validateLF
  rw [validateFloat01_eq h0 h1]

theorem isStr_exists {j : Json} (h : isStr j = true) : ∃ s, j = .str s := by
  cases j with
  | null => simp [isStr] at h
  | bool b => simp [isStr] at h
  | num q => simp [isStr] at h
  | str s => exact ⟨s, rfl⟩
  | arr xs => simp [isStr] at h
  | obj fs => simp [isStr] at h

theorem validateComp_ok (c : CompDict) (h : compFieldsOk c = true) :
    ∃ v, validateComp c = .ok v := by
  unfold compFieldsOk at h
  rw [Bool.and_eq_true, Bool.and_eq_true] at h
  obtain ⟨⟨ht, hc⟩, hl⟩ := h
  rcases c with ⟨t, ct, loc⟩
  obtain ⟨s1, rfl⟩ := isStr_exists ht
  obtain ⟨s2, rfl⟩ := isStr_exists hc
  obtain ⟨s3, rfl⟩ := isStr_exists hl
  exact ⟨⟨s1, s2, s3⟩, rfl⟩

theorem validateComps_ok (cs : List CompDict) (h : cs.all compFieldsOk = true) :
    ∃ vs, validateComps cs = .ok vs := by
  induction cs with
  | nil => exact ⟨[], rfl⟩
  | cons c rest ih =>
    rw [List.all_cons, Bool.and_eq_true] at h
    obtain ⟨v, hv⟩ := validateComp_ok c h.1
    obtain ⟨vs, hvs⟩ := ih h.2
    refine ⟨v :: vs, ?_⟩
    unfold validateComps
    rw [hv, hvs]

theorem validateFallacy_ok (f : FallacyDict) (hf : fallacyFieldsOk f = true)
    (h0 : 0 ≤ f.severity) (h1 : f.severity ≤ 1) : ∃ v, validateFallacy f = .ok v := by
  unfold fallacyFieldsOk at hf
  rw [Bool.and_eq_true, Bool.and_eq_true] at hf
  obtain ⟨⟨htype, hloc⟩, hdesc⟩ := hf
  rcases f with ⟨t, loc, desc, sev⟩
  cases t with
  | str s =>
    dsimp only at htype
    obtain ⟨ls, rfl⟩ := isStr_exists hloc
    obtain ⟨ds, rfl⟩ := isStr_exists hdesc
    refine ⟨⟨s, ls, ds, sev⟩, ?_⟩
    unfold validateFallacy
    dsimp only [validateStr]
    rw [if_pos htype, validateFloat01_eq h0 h1]
  | null => dsimp only at htype; exact absurd htype (by simp)
  | bool b => dsimp only at htype; exact absurd htype (by simp)
  | num q => dsimp only at htype; exact absurd htype (by simp)
  | arr xs => dsimp only at htype; exact absurd htype (by simp)
  | obj fs => dsimp only at htype; exact absurd htype (by simp)

theorem validateFallacies_ok (fs : List FallacyDict) (h : fs.all fallacyFieldsOk = true)
    (hsev : ∀ f ∈ fs, 0 ≤ f.severity ∧ f.severity ≤ 1) :
    ∃ vs, validateFallacies fs = .ok vs := by
  induction fs with
  | nil => exact ⟨[], rfl⟩
  | cons f rest ih =>
    rw [List.all_cons, Bool.and_eq_true] at h
    obtain ⟨hs0, hs1⟩ := hsev f (List.mem_cons_self f rest)
    obtain ⟨v, hv⟩ := validateFallacy_ok f h.1 hs0 hs1
    obtain ⟨vs, hvs⟩ := ih h.2 (fun g hg => hsev g (List.mem_cons_of_mem f hg))
    refine ⟨v :: vs, ?_⟩
    unfold validateFallacies
    rw [hv, hvs]

theorem validateEvaluation_ok (ev : ReasoningLogicEvaluation)
    (h0 : 0 ≤ ev.overall_score) (h1 : ev.overall_score ≤ 1) :
    ∃ e, ReasoningLogicEvaluator.validateEvaluation ev = .ok e := by
  refine ⟨ev, ?_⟩
  unfold ReasoningLogicEvaluator.validateEvaluation
  rw [validateFloat01_eq h0 h1]

theorem roundHalfEven_bounds {q : ℚ} (h0 : 0 ≤ q) (h1 : q ≤ 1000) :
    0 ≤ roundHalfEven q ∧ roundHalfEven q ≤ 1000 := by
  have hf0 : (0 : ℤ) ≤ q.floor := by
    rw [rat_floor_eq_floor]
    exact Int.le_floor.mpr (by exact_mod_cast h0)
  have hf1 : q.floor ≤ 1000 := by
    rw [rat_floor_eq_floor]
    have hc : ((1000 : ℤ) : ℚ) = (1000 : ℚ) := by norm_num
    calc ⌊q⌋ ≤ ⌊(1000 : ℚ)⌋ := Int.floor_le_floor h1
      _ = 1000 := by rw [← hc, Int.floor_intCast]
  have hfq : (q.floor : ℚ) ≤ q := by
    rw [rat_floor_eq_floor]
    exact Int.floor_le q
  simp only [roundHalfEven]
  split_ifs with hlt hgt heven
  · exact ⟨hf0, hf1⟩
  · have hhalf : (1 : ℚ) / 2 ≤ q - (q.floor : ℚ) := le_of_not_lt hlt
    have hlt1000 : ((q.floor : ℚ)) < 1000 := by linarith
    have : q.floor < 1000 := by exact_mod_cast hlt1000
    constructor <;> omega
  · exact ⟨hf0, hf1⟩
  · have hhalf : (1 : ℚ) / 2 ≤ q - (q.floor : ℚ) := le_of_not_lt hlt
    have hlt1000 : ((q.floor : ℚ)) < 1000 := by linarith
    have : q.floor < 1000 := by exact_mod_cast hlt1000
    constructor <;> omega

theorem round3_bounds {q : ℚ} (h0 : 0 ≤ q) (h1 : q ≤ 1) :
    0 ≤ round3 q ∧ round3 q ≤ 1 := by
  unfold round3
  obtain ⟨ha, hb⟩ := roundHalfEven_bounds (q := q * 1000) (by positivity) (by nlinarith)
  constructor
  · exact div_nonneg (by exact_mod_cast ha) (by norm_num)
  · rw [div_le_one (by norm_num)]
    exact_mod_cast hb

theorem calculate_overall_bounds (rd : ReasoningDepthResult) (a : ArgumentStructureResult)
    (c : ConsistencyResult) (l : LogicalFallacyResult)
    (h1 : 0 ≤ rd.score) (h2 : rd.score ≤ 1) (h3 : 0 ≤ a.score) (h4 : a.score ≤ 1)
    (h5 : 0 ≤ c.score) (h6 : c.score ≤ 1) (h7 : 0 ≤ l.score) (h8 : l.score ≤ 1) :
    0 ≤ ReasoningLogicEvaluator.calculate_overall_score rd a c l ∧
      ReasoningLogicEvaluator.calculate_overall_score rd a c l ≤ 1 := by
  unfold ReasoningLogicEvaluator.calculate_overall_score
  apply round3_bounds
  · nlinarith
  · nlinarith

/-- C1 (amended): `evaluate` returns a complete report and raises no
error for every article text, title, decoder behaviour and model
behaviour, provided the parsed argument components have string-typed
fields and every parsed fallacy has a `type` naming one of the nine
enum values and string-typed `location`/`description` (otherwise the
orchestrator's model validation raises). -/
theorem C1_evaluate_total_when_parsed_fields_valid (loads : Loads)
    (llmRD llmAS llmLF llmCS : LLM) (text : PyStr) (title : Option PyStr)
    (hA : (ArgumentStructureAgent.analyze loads llmAS text).argument_components.all
      compFieldsOk = true)
    (hL : (LogicalFallacyAgent.analyze loads llmLF text).fallacies.all
      fallacyFieldsOk = true) :
    ∃ ev, ReasoningLogicEvaluator.evaluate loads llmRD llmAS llmLF llmCS text title =
      .ok ev := by
  obtain ⟨hrd0, hrd1⟩ := RD_analyze_bounds loads llmRD text
  obtain ⟨⟨has0, has1⟩, hpc0, hpc1⟩ := AS_analyze_bounds loads llmAS text
  obtain ⟨hcs0, hcs1⟩ := CS_analyze_bounds loads llmCS text
  obtain ⟨⟨hlf0, hlf1⟩, hsev⟩ := LF_analyze_bounds loads llmLF text
  obtain ⟨comps, hcomps⟩ := validateComps_ok _ hA
  obtain ⟨fals, hfals⟩ := validateFallacies_ok _ hL hsev
  unfold ReasoningLogicEvaluator.evaluate
  rw [validateRD_eq _ hrd0 hrd1]
  dsimp only
  rw [hcomps]
  dsimp only
  rw [validateAS_eq _ comps has0 has1 hpc0 hpc1]
  dsimp only
  rw [hfals]
  dsimp only
  rw [validateLF_eq _ fals hlf0 hlf1]
  dsimp only
  rw [validateCS_eq _ hcs0 hcs1]
  dsimp only
  exact validateEvaluation_ok _
    (calculate_overall_bounds _ _ _ _ hrd0 hrd1 has0 has1 hcs0 hcs1 hlf0 hlf1).1
    (calculate_overall_bounds _ _ _ _ hrd0 hrd1 has0 has1 hcs0 hcs1 hlf0 hlf1).2

/-- A response object whose single fallacy carries a `type` outside the
`LogicalFallacyType` enum. -/
def jBadFallacyType : Json :=
  Json.obj [("fallacies".data,
    Json.arr [Json.obj [("type".data, Json.str ("appeal_to_authority".data))]])]

/-- A decoder behaviour answering the out-of-enum fallacy object. -/
def loadsBadType : Loads := fun _ => .ok jBadFallacyType

/-- A model behaviour answering a fixed response text. -/
def llmOk : LLM := fun _ => .ok ("resp".data)

/-- A model behaviour whose invocation always fails. -/
def llmDown : LLM := fun _ => .error ("down".data)

/-- C1 counterexample: with an LLM behaviour that makes the fallacy
agent retain a fallacy whose `type` is "appeal_to_authority" (not an
enum member), `evaluate` raises a validation error instead of returning
a report. -/
theorem C1_counterexample :
    isOkB (ReasoningLogicEvaluator.evaluate loadsBadType llmDown llmDown llmOk llmDown
      ("t".data) none) = false := by
  obtain ⟨hrd0, hrd1⟩ := RD_analyze_bounds loadsBadType llmDown ("t".data)
  obtain ⟨⟨has0, has1⟩, hpc0, hpc1⟩ := AS_analyze_bounds loadsBadType llmDown ("t".data)
  have hcomps : validateComps
      (ArgumentStructureAgent.analyze loadsBadType llmDown ("t".data)).argument_components =
      .ok [] := rfl
  have hfals : validateFallacies
      (LogicalFallacyAgent.analyze loadsBadType llmOk ("t".data)).fallacies =
      .error ("Input should be a member of LogicalFallacyType".data) := rfl
  unfold ReasoningLogicEvaluator.evaluate
  rw [validateRD_eq _ hrd0 hrd1]
  dsimp only
  rw [hcomps]
  dsimp only
  rw [validateAS_eq _ [] has0 has1 hpc0 hpc1]
  dsimp only
  rw [hfals]
  rfl

/-- Witness for the amended C1 at concrete behaviours. -/
theorem C1_witness :
    (ArgumentStructureAgent.analyze loadsBadType llmDown ("t".data)).argument_components.all
      compFieldsOk = true ∧
    (LogicalFallacyAgent.analyze loadsBadType llmDown ("t".data)).fallacies.all
      fallacyFieldsOk = true ∧
    ∃ ev, ReasoningLogicEvaluator.evaluate loadsBadType llmDown llmDown llmDown llmDown
      ("t".data) none = .ok ev :=
  ⟨rfl, rfl,
   C1_evaluate_total_when_parsed_fields_valid loadsBadType llmDown llmDown llmDown llmDown
     ("t".data) none rfl rfl⟩

end InsightEngine
